import Mathlib

/-
Verification of the Mechanic Shop REST API core: a shallow embedding of
the data model (application/models.py), the marshmallow schemas
(customerSchemas.py, service_ticket/schemas.py, ...), the JWT token
service and auth guard (application/extensions.py), and the route
handlers (blueprints/*/routes.py), together with theorems settling the
specification claims about them.

Conventions of the embedding:
- Database rows are Lean structures; the database is a `DBState` of lists.
- Time is a `Nat` tick count (seconds); `datetime.utcnow()` becomes an
  explicit `now : Time` argument threaded to the functions that read it.
- Each Flask handler becomes a function `... → DBState → Response × DBState`
  returning the (status code, JSON body) pair and the post-request state.
- JSON response bodies are classified by the inductive `Body`, one
  constructor per body shape the handlers produce.
- External collaborators (the jose JWT library, the bcrypt library,
  marshmallow's Email validator) are modelled symbolically from their
  documented contracts; each such model is marked in its doc comment.
-/

set_option linter.unusedVariables false

/-! ## Time and basic helpers -/

/-- Seconds-based timestamp standing for `datetime.utcnow()` values. -/
abbrev Time := Nat

/-- Models Python `str.strip()` on payload string fields: drop leading
and trailing whitespace.  Implemented over the character list so that it
is structurally recursive (kernel reducible). -/
def pyStrip (s : String) : String :=
  String.mk (((s.data.dropWhile Char.isWhitespace).reverse.dropWhile Char.isWhitespace).reverse)

/-- Structural prefix test on character lists. -/
def charsStartWith : List Char → List Char → Bool
  | [], _ => true
  | _ :: _, [] => false
  | a :: as, b :: bs => a == b && charsStartWith as bs

/-- Structural split of a character list on a separator character;
always returns a non-empty list of pieces. -/
def splitOnChar (c : Char) : List Char → List (List Char)
  | [] => [[]]
  | x :: xs =>
    if x == c then [] :: splitOnChar c xs
    else
      match splitOnChar c xs with
      | [] => [[x]]
      | y :: ys => (x :: y) :: ys

/-! ## Decimal round-trip used by the token subject

`encode_token` stores `str(customer_id)` in the token and `token_required`
recovers it with `int(payload['sub'])`.  The decimal string is modelled as
a sign flag plus the little-endian list of decimal digits. -/

/-- Decimal digits of `n`, least significant first, computed with explicit
fuel so that the definition is structurally recursive (kernel reducible).
The empty list represents 0. -/
def decDigitsAux : Nat → Nat → List Nat
  | 0, _ => []
  | fuel + 1, n => if n = 0 then [] else n % 10 :: decDigitsAux fuel (n / 10)

/-- Decimal digits of a natural number, least significant first. -/
def decDigits (n : Nat) : List Nat := decDigitsAux n n

/-- Value of a little-endian decimal digit list. -/
def ofDecDigits : List Nat → Nat
  | [] => 0
  | d :: ds => d + 10 * ofDecDigits ds

/-- Models Python `str()` on an integer: sign flag plus decimal digits. -/
def pyStrOfInt (i : Int) : Bool × List Nat :=
  (decide (i < 0), decDigits i.natAbs)

/-- Models Python `int()` on a decimal integer string. -/
def pyIntOfStr (s : Bool × List Nat) : Int :=
  if s.1 then -(ofDecDigits s.2 : Int) else (ofDecDigits s.2 : Int)

/-! ## Token service (application/extensions.py) -/

/-- `TOKEN_EXPIRATION_HOURS = 24` from extensions.py. -/
def TOKEN_EXPIRATION_HOURS : Nat := 24

/-- JWT claim set built by `encode_token`: expiry, issued-at, and the
subject serialized as a decimal string (sign flag plus digit list). -/
structure JwtPayload where
  exp : Time
  iat : Time
  subNeg : Bool
  subDigits : List Nat
deriving Repr, DecidableEq

/-- A signed JWT.  The HS256 MAC is modelled symbolically: the signature
is the pair of the signing key and the signed claim set, so a signature
verifies exactly when it was produced with the same key over the same
payload. -/
structure Token where
  payload : JwtPayload
  sig : String × JwtPayload
deriving Repr, DecidableEq

/-- Embeds `encode_token` (extensions.py lines 30-46): claims are
`exp = now + 24 hours`, `iat = now`, `sub = str(customer_id)`, signed with
the server secret. -/
def encode_token (customer_id : Int) (now : Time) (secret : String) : Token :=
  { payload :=
      { exp := now + TOKEN_EXPIRATION_HOURS * 3600
        iat := now
        subNeg := (pyStrOfInt customer_id).1
        subDigits := (pyStrOfInt customer_id).2 }
    sig := (secret,
      { exp := now + TOKEN_EXPIRATION_HOURS * 3600
        iat := now
        subNeg := (pyStrOfInt customer_id).1
        subDigits := (pyStrOfInt customer_id).2 }) }

/-- Models `jose.jwt.decode` (external library) on the symbolic token:
reject a signature not produced with this secret over this payload,
reject a token whose `exp` is in the past, otherwise return the claims. -/
def jwtDecode (t : Token) (secret : String) (now : Time) :
    Except String JwtPayload :=
  if t.sig ≠ (secret, t.payload) then .error "Signature verification failed."
  else if t.payload.exp < now then .error "Signature has expired."
  else .ok t.payload

/-! ## Data model (application/models.py) -/

/-- Row of the `customer` table.  `password` holds the bcrypt hash. -/
structure Customer where
  id : Int
  first_name : String
  last_name : String
  email : String
  password : String
  phone : Option String
  address : Option String
  created_at : Time
deriving Repr, DecidableEq

/-- Row of the `mechanic` table. -/
structure Mechanic where
  id : Int
  first_name : String
  last_name : String
  email : String
  phone : Option String
  specialty : Option String
  hourly_rate : Option Rat
  hire_date : Option Nat
  created_at : Time
deriving Repr, DecidableEq

/-- Row of the `service_ticket` table. -/
structure ServiceTicket where
  id : Int
  customer_id : Int
  vehicle_year : Option Int
  vehicle_make : Option String
  vehicle_model : Option String
  vehicle_vin : Option String
  description : String
  estimated_cost : Option Rat
  actual_cost : Option Rat
  status : String
  created_at : Time
  completed_at : Option Time
deriving Repr, DecidableEq

/-- Row of the `inventory` table. -/
structure Inventory where
  id : Int
  name : String
  price : Rat
deriving Repr, DecidableEq

/-- The relational state: the four entity tables plus the two join tables
`mechanic_service_ticket` (pairs `(mechanic_id, service_ticket_id)`) and
`inventory_service_ticket` (pairs `(inventory_id, service_ticket_id)`). -/
structure DBState where
  customers : List Customer
  mechanics : List Mechanic
  tickets : List ServiceTicket
  parts : List Inventory
  mechanicAssignments : List (Int × Int)
  partAssignments : List (Int × Int)
deriving Repr, DecidableEq

/-- `Customer.query.get(id)`. -/
def findCustomer (st : DBState) (i : Int) : Option Customer :=
  st.customers.find? (fun c => c.id == i)

/-- `Mechanic.query.get(id)`. -/
def findMechanic (st : DBState) (i : Int) : Option Mechanic :=
  st.mechanics.find? (fun m => m.id == i)

/-- `ServiceTicket.query.get(id)`. -/
def findTicket (st : DBState) (i : Int) : Option ServiceTicket :=
  st.tickets.find? (fun t => t.id == i)

/-- `Inventory.query.get(id)`. -/
def findPart (st : DBState) (i : Int) : Option Inventory :=
  st.parts.find? (fun p => p.id == i)

/-- `Customer.query.filter_by(email=...).first()`. -/
def findCustomerByEmail (st : DBState) (email : String) : Option Customer :=
  st.customers.find? (fun c => c.email == email)

/-- Autoincrement id the database would hand a newly committed customer. -/
def nextCustomerId (st : DBState) : Int :=
  (st.customers.foldr (fun c m => max c.id m) 0) + 1

/-- Autoincrement id the database would hand a newly committed ticket. -/
def nextTicketId (st : DBState) : Int :=
  (st.tickets.foldr (fun t m => max t.id m) 0) + 1

/-- Replace the customer row with the same id. -/
def setCustomer (st : DBState) (c : Customer) : DBState :=
  { st with customers := st.customers.map (fun c2 => if c2.id == c.id then c else c2) }

/-- Replace the ticket row with the same id. -/
def setTicket (st : DBState) (t : ServiceTicket) : DBState :=
  { st with tickets := st.tickets.map (fun t2 => if t2.id == t.id then t else t2) }

/-- `db.session.add` + commit for a new ticket row. -/
def addTicket (st : DBState) (t : ServiceTicket) : DBState :=
  { st with tickets := st.tickets ++ [t] }

/-- `ServiceTicket.query.filter_by(customer_id=...).count()` used by
delete_customer. -/
def customerTicketCount (st : DBState) (cid : Int) : Nat :=
  (st.tickets.filter (fun t => t.customer_id == cid)).length

/-- Join rows of `mechanic_service_ticket` for one mechanic, used by
delete_mechanic's count. -/
def mechanicAssignmentCount (st : DBState) (mid : Int) : Nat :=
  (st.mechanicAssignments.filter (fun pr => pr.1 == mid)).length

/-- Join rows of `inventory_service_ticket` for one part: the
`inventory_item.service_tickets` collection checked by delete_inventory. -/
def partAssignmentCount (st : DBState) (iid : Int) : Nat :=
  (st.partAssignments.filter (fun pr => pr.1 == iid)).length

/-- Membership test `mechanic in ticket.mechanics`. -/
def mechanicAssigned (st : DBState) (mid tid : Int) : Bool :=
  st.mechanicAssignments.any (fun pr => pr.1 == mid && pr.2 == tid)

/-! ## Dump schemas (marshmallow `dump` output shapes)

`password` is `load_only` on CustomerSchema, so no dump ever contains it;
`customer_simple_schema` additionally excludes `service_tickets`. -/

/-- Output of `customer_simple_schema.dump` (and of the customer nested
inside a ticket, which excludes `service_tickets`; `password` is
load-only). -/
structure CustomerOut where
  id : Int
  first_name : String
  last_name : String
  email : String
  phone : Option String
  address : Option String
  created_at : Time
deriving Repr, DecidableEq

/-- Output of `MechanicSchema.dump` without the `service_tickets` nesting
(the form nested inside a ticket). -/
structure MechanicOut where
  id : Int
  first_name : String
  last_name : String
  email : String
  phone : Option String
  specialty : Option String
  hourly_rate : Option Rat
  hire_date : Option Nat
  created_at : Time
deriving Repr, DecidableEq

/-- Output of `service_ticket_schema.dump`: the column fields plus the
nested `customer` (absent when the ticket is itself nested inside a
customer) and the nested `mechanics`. -/
structure TicketOut where
  id : Int
  customer_id : Int
  vehicle_year : Option Int
  vehicle_make : Option String
  vehicle_model : Option String
  vehicle_vin : Option String
  description : String
  estimated_cost : Option Rat
  actual_cost : Option Rat
  status : String
  created_at : Time
  completed_at : Option Time
  customer : Option CustomerOut
  mechanics : List MechanicOut
deriving Repr, DecidableEq

/-- Output of the full `customer_schema.dump` used by GET /customers/{id}:
the simple fields plus nested `service_tickets` (each without its
`customer`). -/
structure CustomerFullOut where
  base : CustomerOut
  service_tickets : List TicketOut
deriving Repr, DecidableEq

def dumpCustomerSimple (c : Customer) : CustomerOut :=
  { id := c.id, first_name := c.first_name, last_name := c.last_name
    email := c.email, phone := c.phone, address := c.address
    created_at := c.created_at }

def dumpMechanic (m : Mechanic) : MechanicOut :=
  { id := m.id, first_name := m.first_name, last_name := m.last_name
    email := m.email, phone := m.phone, specialty := m.specialty
    hourly_rate := m.hourly_rate, hire_date := m.hire_date
    created_at := m.created_at }

/-- The `ticket.mechanics` relationship resolved through the join table. -/
def ticketMechanics (st : DBState) (tid : Int) : List Mechanic :=
  st.mechanics.filter (fun m => mechanicAssigned st m.id tid)

def dumpTicket (st : DBState) (t : ServiceTicket) (withCustomer : Bool) : TicketOut :=
  { id := t.id, customer_id := t.customer_id, vehicle_year := t.vehicle_year
    vehicle_make := t.vehicle_make, vehicle_model := t.vehicle_model
    vehicle_vin := t.vehicle_vin, description := t.description
    estimated_cost := t.estimated_cost, actual_cost := t.actual_cost
    status := t.status, created_at := t.created_at
    completed_at := t.completed_at
    customer := if withCustomer then (findCustomer st t.customer_id).map dumpCustomerSimple else none
    mechanics := (ticketMechanics st t.id).map dumpMechanic }

/-- The `customer.service_tickets` relationship. -/
def customerTickets (st : DBState) (cid : Int) : List ServiceTicket :=
  st.tickets.filter (fun t => t.customer_id == cid)

def dumpCustomerFull (st : DBState) (c : Customer) : CustomerFullOut :=
  { base := dumpCustomerSimple c
    service_tickets := (customerTickets st c.id).map (fun t => dumpTicket st t false) }

/-! ## Response bodies -/

/-- Per-field validation messages: `err.messages` from marshmallow. -/
abbrev ValErrors := List (String × List String)

/-- JSON body of a response, one constructor per shape the handlers
produce: `err s` is `{"error": s}`, `errs m` is `{"errors": m}` (the 400
validation shape), `msg s` is `{"message": s}`, and the remaining
constructors are the success payloads. -/
inductive Body where
  | err (s : String)
  | errs (m : ValErrors)
  | msg (s : String)
  | customer (c : CustomerOut)
  | customers (cs : List CustomerOut)
  | customerFull (c : CustomerFullOut)
  | ticket (t : TicketOut)
  | tickets (ts : List TicketOut)
  | loginOk (m : String) (token : Token) (c : CustomerOut)
deriving Repr, DecidableEq

/-- HTTP status code and JSON body. -/
abbrev Response := Nat × Body

/-! ## Authorization guard (token_required, extensions.py lines 48-80) -/

/-- Authorization header as seen by `token_required`, abstracting the
`"Bearer <token>"` string handling of the source: header absent; header
whose split on a space has no second part (the IndexError branch); a
second part that is the empty string (falsy, so "Token is missing"); or a
structurally parsed token. -/
inductive AuthHeader where
  | absent
  | badFormat
  | emptyToken
  | bearer (t : Token)
deriving Repr, DecidableEq

/-- Embeds the `token_required` decorator: on any authentication failure
the wrapped handler `f` never runs and the 401 body is produced with a
`message` key (`jsonify({'message': ...})` in the source); on success the
subject decoded from the token is passed to `f` as its first argument. -/
def token_required (secret : String) (now : Time) (hdr : AuthHeader)
    (f : Int → DBState → Response × DBState) (st : DBState) : Response × DBState :=
  match hdr with
  | .absent => ((401, .msg "Token is missing"), st)
  | .badFormat => ((401, .msg "Token format invalid. Expected: Bearer <token>"), st)
  | .emptyToken => ((401, .msg "Token is missing"), st)
  | .bearer t =>
    match jwtDecode t secret now with
    | .error e => ((401, .msg ("Token is invalid: " ++ e)), st)
    | .ok p => f (pyIntOfStr (p.subNeg, p.subDigits)) st

/-! ## Credential hasher (external bcrypt library)

Symbolic model of bcrypt, from its documented contract: `hashpw` embeds
the salt in the output string (the digest is represented symbolically by
the hashed secret itself); `checkpw` re-derives the comparison from a
well-formed stored hash and raises `ValueError` ("Invalid salt") when the
stored value is not a well-formed bcrypt hash — modelled as
`Except.error`. -/

/-- Models `bcrypt.hashpw(password, bcrypt.gensalt())`; the fresh salt is
an explicit argument. -/
def bcryptHashpw (password : String) (salt : Nat) : String :=
  "$2b$12$" ++ toString salt ++ "$" ++ password

/-- Models `bcrypt.checkpw(password, storedHash)`: `ok` with the
comparison result on a well-formed hash, `error` (ValueError) on a
malformed one. -/
def bcryptCheckpw (password : String) (storedHash : String) : Except Unit Bool :=
  if charsStartWith "$2b$12$".data storedHash.data then
    match splitOnChar '$' (storedHash.data.drop 7) with
    | _ :: rest@(_ :: _) => .ok (String.mk (List.intercalate ['$'] rest) == password)
    | _ => .error ()
  else .error ()

/-- A stored hash accepted by `bcryptCheckpw` without raising. -/
def wellFormedBcrypt (storedHash : String) : Bool :=
  charsStartWith "$2b$12$".data storedHash.data &&
    match splitOnChar '$' (storedHash.data.drop 7) with
    | _ :: _ :: _ => true
    | _ => false

/-! ## Validation layer (marshmallow schemas) -/

/-- Models marshmallow's `fields.Email` validator (external library):
accepts a string with exactly one `@`, a non-empty local part and a
non-empty domain containing a dot.  No claim depends on the validator's
exact boundary. -/
def isValidEmail (s : String) : Bool :=
  match splitOnChar '@' s.data with
  | [u, d] => !u.isEmpty && !d.isEmpty && d.contains '.'
  | _ => false

/-- `validate.Length(min=lo, max=hi)` on a string. -/
def lengthBetween (lo hi : Nat) (s : String) : Bool :=
  lo ≤ s.length && s.length ≤ hi

/-- `validate.Length(max=hi)` on a string. -/
def lengthAtMost (hi : Nat) (s : String) : Bool := s.length ≤ hi

/-- One per-field error entry when `bad` holds, nothing otherwise. -/
def fieldErr (field : String) (bad : Bool) (m : String) : ValErrors :=
  if bad then [(field, [m])] else []

/-- Missing-required-field error when the field is absent and required
fields are being checked (they are skipped under `partial=True`). -/
def requiredErr (field : String) (checkRequired : Bool) (absent : Bool) : ValErrors :=
  fieldErr field (checkRequired && absent) "Missing data for required field."

/-- A validator applied only when the field was supplied. -/
def suppliedErr {α : Type} (field : String) (v : Option α) (ok : α → Bool) (m : String) : ValErrors :=
  match v with
  | none => []
  | some x => fieldErr field (!ok x) m

/-! ### CustomerSchema (customer/customerSchemas.py) -/

/-- Client JSON body for customer create and update.  `none` marks an
absent key.  `idSupplied` / `createdAtSupplied` record an attempt to
write the dump-only fields `id` / `created_at`; marshmallow rejects such
keys as unknown fields. -/
structure CustomerPayload where
  first_name : Option String := none
  last_name : Option String := none
  email : Option String := none
  password : Option String := none
  phone : Option String := none
  address : Option String := none
  idSupplied : Bool := false
  createdAtSupplied : Bool := false
deriving Repr, DecidableEq

/-- The `@pre_load process_input` hook of CustomerSchema: strip
whitespace from every supplied string field except `password`, then
replace a supplied non-empty password by its bcrypt hash (the fresh salt
is an explicit argument). -/
def customerPreLoad (p : CustomerPayload) (salt : Nat) : CustomerPayload :=
  { p with
    first_name := p.first_name.map pyStrip
    last_name := p.last_name.map pyStrip
    email := p.email.map pyStrip
    phone := p.phone.map pyStrip
    address := p.address.map pyStrip
    password := p.password.map (fun pw => if pw = "" then pw else bcryptHashpw pw salt) }

/-- Field validation of CustomerSchema on the pre-loaded payload.
`checkRequired` is false under `partial=True` (update), true on create.
All failures are collected, as marshmallow does. -/
def validateCustomer (checkRequired : Bool) (p : CustomerPayload) : ValErrors :=
  requiredErr "first_name" checkRequired p.first_name.isNone ++
  requiredErr "last_name" checkRequired p.last_name.isNone ++
  requiredErr "email" checkRequired p.email.isNone ++
  requiredErr "password" checkRequired p.password.isNone ++
  suppliedErr "first_name" p.first_name (lengthBetween 1 50) "Length must be between 1 and 50." ++
  suppliedErr "last_name" p.last_name (lengthBetween 1 50) "Length must be between 1 and 50." ++
  suppliedErr "email" p.email isValidEmail "Not a valid email address." ++
  suppliedErr "password" p.password (fun s => 6 ≤ s.length) "Shorter than minimum length 6." ++
  suppliedErr "phone" p.phone (lengthAtMost 20) "Longer than maximum length 20." ++
  suppliedErr "address" p.address (lengthAtMost 200) "Longer than maximum length 200." ++
  fieldErr "id" p.idSupplied "Unknown field." ++
  fieldErr "created_at" p.createdAtSupplied "Unknown field."

/-- Apply the supplied fields of a loaded payload onto an instance
(`schema.load(data, instance=customer, partial=True)` merge step). -/
def mergeCustomer (c : Customer) (p : CustomerPayload) : Customer :=
  { c with
    first_name := p.first_name.getD c.first_name
    last_name := p.last_name.getD c.last_name
    email := p.email.getD c.email
    password := p.password.getD c.password
    phone := match p.phone with | some v => some v | none => c.phone
    address := match p.address with | some v => some v | none => c.address }

/-- `customer_schema.load(request.json, instance=customer, partial=True)`:
pre-load hooks, field validation (required checks skipped), then the
merge onto the existing row. -/
def loadCustomerUpdate (p : CustomerPayload) (c : Customer) (salt : Nat) :
    Except ValErrors Customer :=
  let q := customerPreLoad p salt
  match validateCustomer false q with
  | [] => .ok (mergeCustomer c q)
  | e :: es => .error (e :: es)

/-- `customer_schema.load(request.json)` on create: pre-load hooks, full
validation, then a fresh instance (`created_at` defaults to now; the id
is assigned later, at commit). -/
def loadCustomerCreate (p : CustomerPayload) (salt : Nat) (now : Time) :
    Except ValErrors Customer :=
  let q := customerPreLoad p salt
  match validateCustomer true q with
  | [] => .ok (mergeCustomer
      { id := 0, first_name := "", last_name := "", email := "", password := ""
        phone := none, address := none, created_at := now } q)
  | e :: es => .error (e :: es)

/-! ### LoginSchema (plain `ma.Schema`: no strip hook, no hashing) -/

/-- Client JSON body for POST /customers/login. -/
structure LoginPayload where
  email : Option String := none
  password : Option String := none
deriving Repr, DecidableEq

/-- Validation of LoginSchema: both fields required, email syntax,
password length at least 6. -/
def validateLogin (p : LoginPayload) : ValErrors :=
  requiredErr "email" true p.email.isNone ++
  requiredErr "password" true p.password.isNone ++
  suppliedErr "email" p.email isValidEmail "Not a valid email address." ++
  suppliedErr "password" p.password (fun s => 6 ≤ s.length) "Shorter than minimum length 6."

/-! ### ServiceTicketSchema (service_ticket/schemas.py) -/

/-- Client JSON body for ticket create and update.  `none` marks an
absent key; the three `...Supplied` flags record attempts to write the
dump-only fields `id`, `created_at` and `completed_at`, which marshmallow
rejects as unknown fields (`completedAtSupplied` also carries the value
the client tried to inject, to state that it is never written). -/
structure TicketPayload where
  customer_id : Option Int := none
  vehicle_year : Option Int := none
  vehicle_make : Option String := none
  vehicle_model : Option String := none
  vehicle_vin : Option String := none
  description : Option String := none
  estimated_cost : Option Rat := none
  actual_cost : Option Rat := none
  status : Option String := none
  idSupplied : Bool := false
  createdAtSupplied : Bool := false
  completedAtSupplied : Option Time := none
deriving Repr, DecidableEq

/-- The `@pre_load strip_whitespace` hook of ServiceTicketSchema: strip
every supplied string field. -/
def ticketPreLoad (p : TicketPayload) : TicketPayload :=
  { p with
    vehicle_make := p.vehicle_make.map pyStrip
    vehicle_model := p.vehicle_model.map pyStrip
    vehicle_vin := p.vehicle_vin.map pyStrip
    description := p.description.map pyStrip
    status := p.status.map pyStrip }

/-- The status enum of `validate.OneOf`. -/
def statusEnum : List String := ["Open", "In Progress", "Completed", "Cancelled"]

/-- Field validation of ServiceTicketSchema on the pre-loaded payload. -/
def validateTicket (checkRequired : Bool) (p : TicketPayload) : ValErrors :=
  requiredErr "customer_id" checkRequired p.customer_id.isNone ++
  requiredErr "description" checkRequired p.description.isNone ++
  suppliedErr "vehicle_year" p.vehicle_year (fun y => 1900 ≤ y && y ≤ 2050)
    "Must be greater than or equal to 1900 and less than or equal to 2050." ++
  suppliedErr "vehicle_make" p.vehicle_make (lengthAtMost 50) "Longer than maximum length 50." ++
  suppliedErr "vehicle_model" p.vehicle_model (lengthAtMost 50) "Longer than maximum length 50." ++
  suppliedErr "vehicle_vin" p.vehicle_vin (lengthAtMost 17) "Longer than maximum length 17." ++
  suppliedErr "description" p.description (lengthBetween 1 (10 ^ 9)) "Shorter than minimum length 1." ++
  suppliedErr "estimated_cost" p.estimated_cost (fun q => 0 ≤ q) "Must be greater than or equal to 0." ++
  suppliedErr "actual_cost" p.actual_cost (fun q => 0 ≤ q) "Must be greater than or equal to 0." ++
  suppliedErr "status" p.status (fun s => statusEnum.contains s) "Must be one of: Open, In Progress, Completed, Cancelled." ++
  fieldErr "id" p.idSupplied "Unknown field." ++
  fieldErr "created_at" p.createdAtSupplied "Unknown field." ++
  fieldErr "completed_at" p.completedAtSupplied.isSome "Unknown field."

/-- Apply the supplied fields of a loaded payload onto a ticket
instance. -/
def mergeTicket (t : ServiceTicket) (p : TicketPayload) : ServiceTicket :=
  { t with
    customer_id := p.customer_id.getD t.customer_id
    vehicle_year := match p.vehicle_year with | some v => some v | none => t.vehicle_year
    vehicle_make := match p.vehicle_make with | some v => some v | none => t.vehicle_make
    vehicle_model := match p.vehicle_model with | some v => some v | none => t.vehicle_model
    vehicle_vin := match p.vehicle_vin with | some v => some v | none => t.vehicle_vin
    description := p.description.getD t.description
    estimated_cost := match p.estimated_cost with | some v => some v | none => t.estimated_cost
    actual_cost := match p.actual_cost with | some v => some v | none => t.actual_cost
    status := p.status.getD t.status }

/-- The `@post_load set_completed_at` hook: when the loaded instance is
`Completed` and `completed_at` is still null, stamp it with now. -/
def ticketPostLoad (now : Time) (t : ServiceTicket) : ServiceTicket :=
  if t.status == "Completed" && t.completed_at == none then
    { t with completed_at := some now }
  else t

/-- `service_ticket_schema.load(request.json, instance=ticket,
partial=True)`. -/
def loadTicketUpdate (p : TicketPayload) (t : ServiceTicket) (now : Time) :
    Except ValErrors ServiceTicket :=
  let q := ticketPreLoad p
  match validateTicket false q with
  | [] => .ok (ticketPostLoad now (mergeTicket t q))
  | e :: es => .error (e :: es)

/-- `service_ticket_schema.load(request.json)` on create: a fresh
instance with default status `Open`, `created_at = now`, null
`completed_at`, then the post-load hook; the id is assigned at commit. -/
def loadTicketCreate (p : TicketPayload) (now : Time) :
    Except ValErrors ServiceTicket :=
  let q := ticketPreLoad p
  match validateTicket true q with
  | [] => .ok (ticketPostLoad now (mergeTicket
      { id := 0, customer_id := 0, vehicle_year := none, vehicle_make := none
        vehicle_model := none, vehicle_vin := none, description := ""
        estimated_cost := none, actual_cost := none, status := "Open"
        created_at := now, completed_at := none } q))
  | e :: es => .error (e :: es)

/-! ## Route handlers -/

/-- Unique-email violation the database raises as `IntegrityError` at
commit: some other customer row already holds this email. -/
def emailConflict (st : DBState) (selfId : Int) (email : String) : Bool :=
  st.customers.any (fun c2 => c2.id != selfId && c2.email == email)

/-- Embeds `login` (customer/routes.py lines 89-117): validate the
credentials, look the customer up by email, check the password with
bcrypt — a ValueError from a malformed stored hash falls into the
catch-all `except Exception` branch and yields the generic 500 — and on
success return the token with the password-free customer dump. -/
def login (lp : LoginPayload) (now : Time) (secret : String) (st : DBState) :
    Response × DBState :=
  match validateLogin lp with
  | e :: es => ((400, .errs (e :: es)), st)
  | [] =>
    match findCustomerByEmail st (lp.email.getD "") with
    | none => ((401, .err "Invalid email or password"), st)
    | some c =>
      match bcryptCheckpw (lp.password.getD "") c.password with
      | .error _ => ((500, .err "An error occurred during login"), st)
      | .ok false => ((401, .err "Invalid email or password"), st)
      | .ok true => ((200, .loginOk "Login successful" (encode_token c.id now secret)
          (dumpCustomerSimple c)), st)

/-- Embeds `create_customer` (customer/routes.py lines 280-301): load and
validate, commit — a duplicate email surfaces as `IntegrityError`, caught
as 409 with rollback — and answer 201 with the simple dump. -/
def create_customer (p : CustomerPayload) (salt : Nat) (now : Time) (st : DBState) :
    Response × DBState :=
  match loadCustomerCreate p salt now with
  | .error errs => ((400, .errs errs), st)
  | .ok c0 =>
    let c := { c0 with id := nextCustomerId st }
    if emailConflict st c.id c.email then
      ((409, .err "Customer with this email already exists"), st)
    else
      ((201, .customer (dumpCustomerSimple c)),
        { st with customers := st.customers ++ [c] })

/-- Embeds `get_customers` (customer/routes.py lines 341-345). -/
def get_customers (st : DBState) : Response × DBState :=
  ((200, .customers (st.customers.map dumpCustomerSimple)), st)

/-- Embeds `get_customer` (customer/routes.py lines 400-407): 404 when
absent, otherwise the full dump with nested tickets. -/
def get_customer (cid : Int) (st : DBState) : Response × DBState :=
  match findCustomer st cid with
  | none => ((404, .err "Customer not found"), st)
  | some c => ((200, .customerFull (dumpCustomerFull st c)), st)

/-- Embeds the `update_customer` handler body (customer/routes.py lines
481-508), which receives the authenticated subject as its first
argument: owner check, lookup, partial load, commit (409 on duplicate
email), 200 with the simple dump. -/
def update_customer (authId : Int) (cid : Int) (p : CustomerPayload) (salt : Nat)
    (st : DBState) : Response × DBState :=
  if authId ≠ cid then ((403, .err "You can only update your own account"), st)
  else
    match findCustomer st cid with
    | none => ((404, .err "Customer not found"), st)
    | some c =>
      match loadCustomerUpdate p c salt with
      | .error errs => ((400, .errs errs), st)
      | .ok c1 =>
        if emailConflict st c1.id c1.email then
          ((409, .err "Customer with this email already exists"), st)
        else ((200, .customer (dumpCustomerSimple c1)), setCustomer st c1)

/-- Embeds the `delete_customer` handler body (customer/routes.py lines
555-580): owner check, lookup, referential block when the customer still
owns tickets, otherwise delete. -/
def delete_customer (authId : Int) (cid : Int) (st : DBState) : Response × DBState :=
  if authId ≠ cid then ((403, .err "You can only delete your own account"), st)
  else
    match findCustomer st cid with
    | none => ((404, .err "Customer not found"), st)
    | some _ =>
      if customerTicketCount st cid > 0 then
        ((409, .err "Cannot delete customer with active service tickets"), st)
      else
        ((200, .msg ("Customer " ++ toString cid ++ " deleted successfully")),
          { st with customers := st.customers.filter (fun c => c.id != cid) })

/-- PUT /customers/{id}: `token_required` wrapped around
`update_customer`. -/
def update_customer_route (cid : Int) (p : CustomerPayload) (hdr : AuthHeader)
    (secret : String) (now : Time) (salt : Nat) (st : DBState) : Response × DBState :=
  token_required secret now hdr (fun authId => update_customer authId cid p salt) st

/-- DELETE /customers/{id}: `token_required` wrapped around
`delete_customer`. -/
def delete_customer_route (cid : Int) (hdr : AuthHeader) (secret : String)
    (now : Time) (st : DBState) : Response × DBState :=
  token_required secret now hdr (fun authId => delete_customer authId cid) st

/-- Embeds `create_service_ticket` (service_ticket/routes.py lines
92-112): load and validate, then refuse with 404 before any write when
the referenced customer does not exist; otherwise commit and answer 201
with the full ticket dump. -/
def create_service_ticket (p : TicketPayload) (now : Time) (st : DBState) :
    Response × DBState :=
  match loadTicketCreate p now with
  | .error errs => ((400, .errs errs), st)
  | .ok t0 =>
    match findCustomer st t0.customer_id with
    | none => ((404, .err "Customer not found"), st)
    | some _ =>
      let t := { t0 with id := nextTicketId st }
      ((201, .ticket (dumpTicket (addTicket st t) t true)), addTicket st t)

/-- Embeds `update_service_ticket` (service_ticket/routes.py lines
270-297): remember the old status, partial load (which runs the
schema's post-load stamp), then stamp `completed_at = now` on a
transition into `Completed` and clear it on a transition out of
`Completed`, and commit. -/
def update_service_ticket (tid : Int) (p : TicketPayload) (now : Time)
    (st : DBState) : Response × DBState :=
  match findTicket st tid with
  | none => ((404, .err "Service ticket not found"), st)
  | some t =>
    let old_status := t.status
    match loadTicketUpdate p t now with
    | .error errs => ((400, .errs errs), st)
    | .ok t1 =>
      let t2 :=
        if t1.status == "Completed" && old_status != "Completed" then
          { t1 with completed_at := some now }
        else if t1.status != "Completed" && old_status == "Completed" then
          { t1 with completed_at := none }
        else t1
      ((200, .ticket (dumpTicket (setTicket st t2) t2 true)), setTicket st t2)

/-- Embeds `assign_mechanic` (service_ticket/routes.py lines 377-398):
404 on a missing ticket or mechanic, 409 when the pair is already in the
join table, otherwise append the pair. -/
def assign_mechanic (tid mid : Int) (st : DBState) : Response × DBState :=
  match findTicket st tid with
  | none => ((404, .err "Service ticket not found"), st)
  | some _ =>
    match findMechanic st mid with
    | none => ((404, .err "Mechanic not found"), st)
    | some _ =>
      if mechanicAssigned st mid tid then
        ((409, .err "Mechanic is already assigned to this ticket"), st)
      else
        ((200, .msg ("Mechanic " ++ toString mid ++ " assigned to ticket " ++ toString tid)),
          { st with mechanicAssignments := st.mechanicAssignments ++ [(mid, tid)] })

/-- Embeds `remove_mechanic` (service_ticket/routes.py lines 436-457):
404 on a missing ticket or mechanic, 409 when the pair is absent from
the join table, otherwise remove the pair. -/
def remove_mechanic (tid mid : Int) (st : DBState) : Response × DBState :=
  match findTicket st tid with
  | none => ((404, .err "Service ticket not found"), st)
  | some _ =>
    match findMechanic st mid with
    | none => ((404, .err "Mechanic not found"), st)
    | some _ =>
      if !mechanicAssigned st mid tid then
        ((409, .err "Mechanic is not assigned to this ticket"), st)
      else
        ((200, .msg ("Mechanic " ++ toString mid ++ " removed from ticket " ++ toString tid)),
          { st with mechanicAssignments := st.mechanicAssignments.erase (mid, tid) })

/-- Embeds `delete_mechanic` (mechanic/routes.py lines 358-378): 404 when
absent, referential block when join rows reference the mechanic,
otherwise delete. -/
def delete_mechanic (mid : Int) (st : DBState) : Response × DBState :=
  match findMechanic st mid with
  | none => ((404, .err "Mechanic not found"), st)
  | some _ =>
    if mechanicAssignmentCount st mid > 0 then
      ((409, .err "Cannot delete mechanic who is assigned to service tickets"), st)
    else
      ((200, .msg ("Mechanic " ++ toString mid ++ " deleted successfully")),
        { st with mechanics := st.mechanics.filter (fun m => m.id != mid) })

/-- Embeds `delete_inventory` (inventory/routes.py lines 274-292): 404
when absent, referential block when the part's `service_tickets`
collection is non-empty, otherwise delete. -/
def delete_inventory (iid : Int) (st : DBState) : Response × DBState :=
  match findPart st iid with
  | none => ((404, .err "Inventory part not found"), st)
  | some _ =>
    if partAssignmentCount st iid > 0 then
      ((409, .err "Cannot delete inventory part that is used in service tickets"), st)
    else
      ((200, .msg ("Inventory part " ++ toString iid ++ " deleted successfully")),
        { st with parts := st.parts.filter (fun p => p.id != iid) })

/-! ## Concrete fixtures used by witnesses and counterexamples -/

def fxCustomer : Customer :=
  { id := 1, first_name := "John", last_name := "Doe", email := "john@x.com"
    password := bcryptHashpw "Secret123" 7, phone := none, address := none, created_at := 0 }

def fxCustomer2 : Customer :=
  { id := 2, first_name := "Jane", last_name := "Roe", email := "jane@x.com"
    password := bcryptHashpw "Secret456" 9, phone := none, address := none, created_at := 0 }

def fxMechanic : Mechanic :=
  { id := 4, first_name := "Mike", last_name := "Wrench", email := "mike@shop.com"
    phone := none, specialty := none, hourly_rate := none, hire_date := none, created_at := 0 }

def fxTicket : ServiceTicket :=
  { id := 3, customer_id := 1, vehicle_year := none, vehicle_make := none
    vehicle_model := none, vehicle_vin := none, description := "Oil change"
    estimated_cost := none, actual_cost := none, status := "Open"
    created_at := 0, completed_at := none }

def fxPart : Inventory := { id := 6, name := "Oil Filter", price := 13 }

def fxEmpty : DBState :=
  { customers := [], mechanics := [], tickets := [], parts := []
    mechanicAssignments := [], partAssignments := [] }

def fxBase : DBState :=
  { customers := [fxCustomer, fxCustomer2], mechanics := [fxMechanic], tickets := [fxTicket]
    parts := [fxPart], mechanicAssignments := [], partAssignments := [] }

def fxAssigned : DBState :=
  { fxBase with mechanicAssignments := [(4, 3)], partAssignments := [(6, 3)] }

/-- State whose only customer holds a malformed stored password hash. -/
def fxMalformed : DBState :=
  { fxEmpty with customers :=
      [{ fxCustomer with email := "mal@x.com", password := "not-a-hash" }] }

/-- `fxBase` with the first customer's stored password hash replaced by
the hash of a different secret: the two states differ only in that one
stored password value. -/
def fxBaseAltPw : DBState :=
  { fxBase with customers :=
      [{ fxCustomer with password := bcryptHashpw "Hacked99" 7 }, fxCustomer2] }

/-- Two customer rows equal on every column except possibly the stored
password hash. -/
def samePublic (c c' : Customer) : Bool :=
  c.id == c'.id && c.first_name == c'.first_name && c.last_name == c'.last_name &&
  c.email == c'.email && c.phone == c'.phone && c.address == c'.address &&
  c.created_at == c'.created_at

/-- Pointwise `samePublic` across the customer table. -/
def samePublicList : List Customer → List Customer → Bool
  | [], [] => true
  | c :: cs, c' :: cs' => samePublic c c' && samePublicList cs cs'
  | _, _ => false

/-- Two database states that agree everywhere except possibly in stored
customer password values. -/
def diffOnlyPasswords (s s' : DBState) : Bool :=
  samePublicList s.customers s'.customers && s.mechanics == s'.mechanics &&
  s.tickets == s'.tickets && s.parts == s'.parts &&
  s.mechanicAssignments == s'.mechanicAssignments && s.partAssignments == s'.partAssignments

/-- Payload used by the create-customer part of the noninterference
witness. -/
def fxNewCustomerPayload : CustomerPayload :=
  { first_name := some "Ann", last_name := some "Lee",
    email := some "ann@x.com", password := some "Passw0rd" }

/-! ## Helper lemmas -/

theorem ofDecDigits_decDigitsAux (fuel : Nat) :
    ∀ n : Nat, n ≤ fuel → ofDecDigits (decDigitsAux fuel n) = n := by
  induction fuel with
  | zero => intro n hn; interval_cases n; rfl
  | succ fuel ih =>
    intro n hn
    by_cases h0 : n = 0
    · subst h0; rfl
    · have hdiv : n / 10 ≤ fuel := by
        have : n / 10 < n := Nat.div_lt_self (Nat.pos_of_ne_zero h0) (by norm_num)
        omega
      simp only [decDigitsAux, h0, if_false, ofDecDigits, ih _ hdiv]
      omega

theorem ofDecDigits_decDigits (n : Nat) : ofDecDigits (decDigits n) = n :=
  ofDecDigits_decDigitsAux n n le_rfl

theorem pyIntOfStr_pyStrOfInt (i : Int) : pyIntOfStr (pyStrOfInt i) = i := by
  have h1 : pyIntOfStr (pyStrOfInt i)
      = if (decide (i < 0)) = true then -(ofDecDigits (decDigits i.natAbs) : Int)
        else (ofDecDigits (decDigits i.natAbs) : Int) := rfl
  rw [h1, ofDecDigits_decDigits]
  by_cases h : i < 0
  · rw [if_pos (by simpa using h)]; omega
  · rw [if_neg (by simpa using h)]; omega

theorem token_required_encode_ok (secret : String) (issuedAt verifyAt : Time)
    (subject : Int) (f : Int → DBState → Response × DBState) (st : DBState)
    (hwin : verifyAt ≤ issuedAt + TOKEN_EXPIRATION_HOURS * 3600) :
    token_required secret verifyAt (.bearer (encode_token subject issuedAt secret)) f st
      = f subject st := by
  have hne : ¬ (issuedAt + TOKEN_EXPIRATION_HOURS * 3600 < verifyAt) := Nat.not_lt.mpr hwin
  simp [token_required, jwtDecode, encode_token, hne]
  rw [pyIntOfStr_pyStrOfInt]

theorem token_required_expired (secret : String) (now : Time) (t : Token)
    (f g : Int → DBState → Response × DBState) (st : DBState)
    (hexp : t.payload.exp < now) :
    (token_required secret now (.bearer t) f st).1.1 = 401
    ∧ token_required secret now (.bearer t) f st
        = token_required secret now (.bearer t) g st := by
  by_cases hsig : t.sig = (secret, t.payload)
  · simp [token_required, jwtDecode, hsig, hexp]
  · simp [token_required, jwtDecode, hsig]

/-! ## Claim theorems -/

/-- C2: issuing a token with `encode_token(subject)` and verifying it
within the expiry window with the same server secret hands exactly that
subject id to the wrapped handler; and a token whose `exp` is before the
current time at verification is rejected with a 401 authentication error
and the wrapped handler never runs (the result does not depend on the
handler and the state is untouched). -/
theorem token_roundtrip_and_expiry
    (subject : Int) (secret : String) (issuedAt verifyAt expiredAt : Time)
    (t : Token) (f g : Int → DBState → Response × DBState) (st : DBState)
    (hwin : verifyAt ≤ issuedAt + TOKEN_EXPIRATION_HOURS * 3600)
    (hexp : t.payload.exp < expiredAt) :
    token_required secret verifyAt (.bearer (encode_token subject issuedAt secret)) f st
      = f subject st
    ∧ (token_required secret expiredAt (.bearer t) f st).1.1 = 401
    ∧ token_required secret expiredAt (.bearer t) f st
        = token_required secret expiredAt (.bearer t) g st
    ∧ (token_required secret expiredAt (.bearer t) f st).2 = st := by
  refine ⟨token_required_encode_ok secret issuedAt verifyAt subject f st hwin,
    (token_required_expired secret expiredAt t f g st hexp).1,
    (token_required_expired secret expiredAt t f g st hexp).2, ?_⟩
  by_cases hsig : t.sig = (secret, t.payload)
  · simp [token_required, jwtDecode, hsig, hexp]
  · simp [token_required, jwtDecode, hsig]

/-- Witness for `token_roundtrip_and_expiry` at subject 5, token issued
at time 0 and verified at time 10, and an expired token checked at time
86401 (one second past its 24-hour window). -/
theorem token_roundtrip_and_expiry_witness :
    (10 ≤ 0 + TOKEN_EXPIRATION_HOURS * 3600)
    ∧ ((encode_token 7 0 "server-secret").payload.exp < 86401)
    ∧ (token_required "server-secret" 10 (.bearer (encode_token 5 0 "server-secret"))
          (fun i st => ((200, .msg (toString i)), st)) fxEmpty
        = (fun (i : Int) (st : DBState) => ((200, Body.msg (toString i)), st)) 5 fxEmpty
      ∧ (token_required "server-secret" 86401 (.bearer (encode_token 7 0 "server-secret"))
          (fun i st => ((200, .msg (toString i)), st)) fxEmpty).1.1 = 401
      ∧ token_required "server-secret" 86401 (.bearer (encode_token 7 0 "server-secret"))
          (fun i st => ((200, .msg (toString i)), st)) fxEmpty
        = token_required "server-secret" 86401 (.bearer (encode_token 7 0 "server-secret"))
          (fun _ st => ((204, .msg "other"), st)) fxEmpty
      ∧ (token_required "server-secret" 86401 (.bearer (encode_token 7 0 "server-secret"))
          (fun i st => ((200, .msg (toString i)), st)) fxEmpty).2 = fxEmpty) :=
  ⟨by decide, by decide,
    token_roundtrip_and_expiry 5 "server-secret" 0 10 86401
      (encode_token 7 0 "server-secret")
      (fun i st => ((200, .msg (toString i)), st))
      (fun _ st => ((204, .msg "other"), st)) fxEmpty (by decide) (by decide)⟩

/-- C5: for an existing ticket and mechanic, assigning when the
(mechanic, ticket) pair is absent yields 200 and appends exactly that
pair; assigning when present yields 409 with the state untouched;
removing when absent yields 409 with the state untouched; removing when
present yields 200 and deletes exactly that pair from the join table. -/
theorem mechanic_assignment_conflicts
    (stAbs stPres : DBState) (tid mid : Int)
    (tA : ServiceTicket) (mA : Mechanic) (tP : ServiceTicket) (mP : Mechanic)
    (htA : findTicket stAbs tid = some tA) (hmA : findMechanic stAbs mid = some mA)
    (htP : findTicket stPres tid = some tP) (hmP : findMechanic stPres mid = some mP)
    (habs : mechanicAssigned stAbs mid tid = false)
    (hpres : mechanicAssigned stPres mid tid = true) :
    ((assign_mechanic tid mid stAbs).1.1 = 200
      ∧ (assign_mechanic tid mid stAbs).2
          = { stAbs with mechanicAssignments := stAbs.mechanicAssignments ++ [(mid, tid)] })
    ∧ assign_mechanic tid mid stPres
        = ((409, .err "Mechanic is already assigned to this ticket"), stPres)
    ∧ remove_mechanic tid mid stAbs
        = ((409, .err "Mechanic is not assigned to this ticket"), stAbs)
    ∧ ((remove_mechanic tid mid stPres).1.1 = 200
      ∧ (remove_mechanic tid mid stPres).2
          = { stPres with mechanicAssignments := stPres.mechanicAssignments.erase (mid, tid) }) := by
  refine ⟨⟨?_, ?_⟩, ?_, ?_, ?_, ?_⟩ <;>
    simp [assign_mechanic, remove_mechanic, htA, hmA, htP, hmP, habs, hpres]

/-- Witness for `mechanic_assignment_conflicts`: ticket 3 and mechanic 4
of the fixtures, with `fxBase` (pair absent) and `fxAssigned` (pair
present). -/
theorem mechanic_assignment_conflicts_witness :
    (findTicket fxBase 3 = some fxTicket ∧ findMechanic fxBase 4 = some fxMechanic
      ∧ findTicket fxAssigned 3 = some fxTicket ∧ findMechanic fxAssigned 4 = some fxMechanic
      ∧ mechanicAssigned fxBase 4 3 = false ∧ mechanicAssigned fxAssigned 4 3 = true)
    ∧ (((assign_mechanic 3 4 fxBase).1.1 = 200
      ∧ (assign_mechanic 3 4 fxBase).2
          = { fxBase with mechanicAssignments := fxBase.mechanicAssignments ++ [(4, 3)] })
    ∧ assign_mechanic 3 4 fxAssigned
        = ((409, .err "Mechanic is already assigned to this ticket"), fxAssigned)
    ∧ remove_mechanic 3 4 fxBase
        = ((409, .err "Mechanic is not assigned to this ticket"), fxBase)
    ∧ ((remove_mechanic 3 4 fxAssigned).1.1 = 200
      ∧ (remove_mechanic 3 4 fxAssigned).2
          = { fxAssigned with mechanicAssignments := fxAssigned.mechanicAssignments.erase (4, 3) })) :=
  ⟨⟨by decide, by decide, by decide, by decide, by decide, by decide⟩,
    mechanic_assignment_conflicts fxBase fxAssigned 3 4 fxTicket fxMechanic fxTicket fxMechanic
      (by decide) (by decide) (by decide) (by decide) (by decide) (by decide)⟩

theorem find?_filter_out {α : Type} (p q : α → Bool) (l : List α)
    (h : ∀ x, q x = true → p x = false) :
    (l.filter p).find? q = none := by
  induction l with
  | nil => rfl
  | cons a l ih =>
    rw [List.filter_cons]
    by_cases hp : p a = true
    · have hq : q a = false := by
        cases hqa : q a
        · rfl
        · rw [h a hqa] at hp; exact absurd hp (by simp)
      rw [if_pos hp]
      simp only [List.find?_cons, hq]
      exact ih
    · rw [if_neg hp]
      exact ih

/-- C4: deleting a Customer owning a ticket, a Mechanic assigned to a
ticket, or an Inventory part referenced by a ticket yields 409 with the
state untouched; deleting any of them with zero such references yields
200 and removes the record.  (The customer delete is exercised through
its owner check, with the authenticated subject equal to the target.) -/
theorem delete_referential_blocking
    (stc1 stc2 stm1 stm2 sti1 sti2 : DBState) (cid mid iid : Int)
    (c1 c2 : Customer) (m1 m2 : Mechanic) (p1 p2 : Inventory)
    (hc1 : findCustomer stc1 cid = some c1) (hcnt1 : customerTicketCount stc1 cid > 0)
    (hc2 : findCustomer stc2 cid = some c2) (hcnt2 : customerTicketCount stc2 cid = 0)
    (hm1 : findMechanic stm1 mid = some m1) (hmc1 : mechanicAssignmentCount stm1 mid > 0)
    (hm2 : findMechanic stm2 mid = some m2) (hmc2 : mechanicAssignmentCount stm2 mid = 0)
    (hi1 : findPart sti1 iid = some p1) (hic1 : partAssignmentCount sti1 iid > 0)
    (hi2 : findPart sti2 iid = some p2) (hic2 : partAssignmentCount sti2 iid = 0) :
    ((delete_customer cid cid stc1).1.1 = 409 ∧ (delete_customer cid cid stc1).2 = stc1)
    ∧ ((delete_customer cid cid stc2).1.1 = 200
        ∧ findCustomer (delete_customer cid cid stc2).2 cid = none)
    ∧ ((delete_mechanic mid stm1).1.1 = 409 ∧ (delete_mechanic mid stm1).2 = stm1)
    ∧ ((delete_mechanic mid stm2).1.1 = 200
        ∧ findMechanic (delete_mechanic mid stm2).2 mid = none)
    ∧ ((delete_inventory iid sti1).1.1 = 409 ∧ (delete_inventory iid sti1).2 = sti1)
    ∧ ((delete_inventory iid sti2).1.1 = 200
        ∧ findPart (delete_inventory iid sti2).2 iid = none) := by
  refine ⟨⟨?_, ?_⟩, ⟨?_, ?_⟩, ⟨?_, ?_⟩, ⟨?_, ?_⟩, ⟨?_, ?_⟩, ⟨?_, ?_⟩⟩
  · simp [delete_customer, hc1, hcnt1]
  · simp [delete_customer, hc1, hcnt1]
  · simp [delete_customer, hc2, hcnt2]
  · have h4 : delete_customer cid cid stc2
        = ((200, .msg ("Customer " ++ toString cid ++ " deleted successfully")),
          { stc2 with customers := stc2.customers.filter (fun c => c.id != cid) }) := by
      simp [delete_customer, hc2, hcnt2]
    rw [h4]
    exact find?_filter_out _ _ _ (fun x hx => by simp only [bne]; rw [hx]; rfl)
  · simp [delete_mechanic, hm1, hmc1]
  · simp [delete_mechanic, hm1, hmc1]
  · simp [delete_mechanic, hm2, hmc2]
  · have h8 : delete_mechanic mid stm2
        = ((200, .msg ("Mechanic " ++ toString mid ++ " deleted successfully")),
          { stm2 with mechanics := stm2.mechanics.filter (fun m => m.id != mid) }) := by
      simp [delete_mechanic, hm2, hmc2]
    rw [h8]
    exact find?_filter_out _ _ _ (fun x hx => by simp only [bne]; rw [hx]; rfl)
  · simp [delete_inventory, hi1, hic1]
  · simp [delete_inventory, hi1, hic1]
  · simp [delete_inventory, hi2, hic2]
  · have h12 : delete_inventory iid sti2
        = ((200, .msg ("Inventory part " ++ toString iid ++ " deleted successfully")),
          { sti2 with parts := sti2.parts.filter (fun p => p.id != iid) }) := by
      simp [delete_inventory, hi2, hic2]
    rw [h12]
    exact find?_filter_out _ _ _ (fun x hx => by simp only [bne]; rw [hx]; rfl)

/-- Witness for `delete_referential_blocking`: customer 1, mechanic 4 and
part 6 of the fixtures; in `fxBase` the customer owns ticket 3 while the
mechanic and part are unreferenced, and in `fxAssigned` the mechanic and
part are both referenced by ticket 3, so the referenced cases use
`fxBase`/`fxAssigned` and the unreferenced ones use states with the
references removed. -/
theorem delete_referential_blocking_witness :
    (findCustomer fxBase 1 = some fxCustomer ∧ customerTicketCount fxBase 1 > 0
      ∧ findCustomer fxEmpty 1 = none ∧ findCustomer { fxBase with tickets := [] } 1 = some fxCustomer
      ∧ customerTicketCount { fxBase with tickets := [] } 1 = 0
      ∧ findMechanic fxAssigned 4 = some fxMechanic ∧ mechanicAssignmentCount fxAssigned 4 > 0
      ∧ findMechanic fxBase 4 = some fxMechanic ∧ mechanicAssignmentCount fxBase 4 = 0
      ∧ findPart fxAssigned 6 = some fxPart ∧ partAssignmentCount fxAssigned 6 > 0
      ∧ findPart fxBase 6 = some fxPart ∧ partAssignmentCount fxBase 6 = 0)
    ∧ (((delete_customer 1 1 fxBase).1.1 = 409 ∧ (delete_customer 1 1 fxBase).2 = fxBase)
      ∧ ((delete_customer 1 1 { fxBase with tickets := [] }).1.1 = 200
          ∧ findCustomer (delete_customer 1 1 { fxBase with tickets := [] }).2 1 = none)
      ∧ ((delete_mechanic 4 fxAssigned).1.1 = 409 ∧ (delete_mechanic 4 fxAssigned).2 = fxAssigned)
      ∧ ((delete_mechanic 4 fxBase).1.1 = 200
          ∧ findMechanic (delete_mechanic 4 fxBase).2 4 = none)
      ∧ ((delete_inventory 6 fxAssigned).1.1 = 409 ∧ (delete_inventory 6 fxAssigned).2 = fxAssigned)
      ∧ ((delete_inventory 6 fxBase).1.1 = 200
          ∧ findPart (delete_inventory 6 fxBase).2 6 = none)) :=
  ⟨⟨by decide, by decide, by decide, by decide, by decide, by decide, by decide,
    by decide, by decide, by decide, by decide, by decide, by decide⟩,
    delete_referential_blocking fxBase { fxBase with tickets := [] } fxAssigned fxBase
      fxAssigned fxBase 1 4 6 fxCustomer fxCustomer fxMechanic fxMechanic fxPart fxPart
      (by decide) (by decide) (by decide) (by decide) (by decide) (by decide)
      (by decide) (by decide) (by decide) (by decide) (by decide) (by decide)⟩

/-- C6: a POST /service-tickets/ whose payload loads successfully but
names a customer id with no Customer row answers 404 with error message
"Customer not found" and leaves the state — in particular the set of
persisted tickets — unchanged. -/
theorem create_ticket_missing_customer
    (p : TicketPayload) (now : Time) (st : DBState) (t0 : ServiceTicket)
    (hload : loadTicketCreate p now = .ok t0)
    (hmiss : findCustomer st t0.customer_id = none) :
    create_service_ticket p now st = ((404, .err "Customer not found"), st) := by
  simp [create_service_ticket, hload, hmiss]

/-- Witness for `create_ticket_missing_customer`: a valid payload naming
customer 5 against a state with no customers. -/
theorem create_ticket_missing_customer_witness :
    (loadTicketCreate { customer_id := some 5, description := some "Oil change" } 9
        = .ok { id := 0, customer_id := 5, vehicle_year := none, vehicle_make := none
                vehicle_model := none, vehicle_vin := none, description := "Oil change"
                estimated_cost := none, actual_cost := none, status := "Open"
                created_at := 9, completed_at := none }
      ∧ findCustomer fxEmpty 5 = none)
    ∧ create_service_ticket { customer_id := some 5, description := some "Oil change" } 9 fxEmpty
        = ((404, .err "Customer not found"), fxEmpty) :=
  ⟨⟨by rfl, by decide⟩,
    create_ticket_missing_customer { customer_id := some 5, description := some "Oil change" } 9
      fxEmpty
      { id := 0, customer_id := 5, vehicle_year := none, vehicle_make := none
        vehicle_model := none, vehicle_vin := none, description := "Oil change"
        estimated_cost := none, actual_cost := none, status := "Open"
        created_at := 9, completed_at := none }
      (by rfl) (by decide)⟩

/-- C3: a valid token issued for subject A used against
PUT /customers/{B} with A ≠ B answers 403 and leaves the state (hence
customer B's record) unchanged; the same token used against
PUT /customers/{A}, with customer A existing and the payload valid and
free of email conflicts, answers 200. -/
theorem customer_update_owner_check
    (st : DBState) (A B : Int) (p : CustomerPayload) (secret : String)
    (issuedAt verifyAt : Time) (salt : Nat) (c : Customer)
    (hwin : verifyAt ≤ issuedAt + TOKEN_EXPIRATION_HOURS * 3600)
    (hne : A ≠ B)
    (hfind : findCustomer st A = some c)
    (hval : validateCustomer false (customerPreLoad p salt) = [])
    (hmail : emailConflict st (mergeCustomer c (customerPreLoad p salt)).id
        (mergeCustomer c (customerPreLoad p salt)).email = false) :
    update_customer_route B p (.bearer (encode_token A issuedAt secret)) secret verifyAt salt st
      = ((403, .err "You can only update your own account"), st)
    ∧ (update_customer_route A p (.bearer (encode_token A issuedAt secret))
        secret verifyAt salt st).1.1 = 200 := by
  constructor
  · rw [update_customer_route, token_required_encode_ok secret issuedAt verifyAt A _ st hwin]
    simp [update_customer, hne]
  · rw [update_customer_route, token_required_encode_ok secret issuedAt verifyAt A _ st hwin]
    simp [update_customer, loadCustomerUpdate, hfind, hval, hmail]

/-- Witness for `customer_update_owner_check`: a token for customer 1
used against customer 2 (403) and against customer 1 (200) in `fxBase`,
with a payload renaming the first name. -/
theorem customer_update_owner_check_witness :
    (10 ≤ 0 + TOKEN_EXPIRATION_HOURS * 3600 ∧ (1 : Int) ≠ 2
      ∧ findCustomer fxBase 1 = some fxCustomer
      ∧ validateCustomer false (customerPreLoad { first_name := some "Johnny" } 7) = []
      ∧ emailConflict fxBase
          (mergeCustomer fxCustomer (customerPreLoad { first_name := some "Johnny" } 7)).id
          (mergeCustomer fxCustomer (customerPreLoad { first_name := some "Johnny" } 7)).email
        = false)
    ∧ update_customer_route 2 { first_name := some "Johnny" }
        (.bearer (encode_token 1 0 "server-secret")) "server-secret" 10 7 fxBase
      = ((403, .err "You can only update your own account"), fxBase)
    ∧ (update_customer_route 1 { first_name := some "Johnny" }
        (.bearer (encode_token 1 0 "server-secret")) "server-secret" 10 7 fxBase).1.1 = 200 :=
  ⟨⟨by decide, by decide, by decide, by decide, by decide⟩,
    (customer_update_owner_check fxBase 1 2 { first_name := some "Johnny" } "server-secret"
      0 10 7 fxCustomer (by decide) (by decide) (by decide) (by decide) (by decide)).1,
    (customer_update_owner_check fxBase 1 2 { first_name := some "Johnny" } "server-secret"
      0 10 7 fxCustomer (by decide) (by decide) (by decide) (by decide) (by decide)).2⟩

theorem find?_map_replace {α : Type} (key : α → Int) (l : List α) (a0 b : α) (i : Int)
    (hfind : l.find? (fun x => key x == i) = some a0) (hid : key b = i) :
    (l.map (fun x => if key x == key b then b else x)).find? (fun x => key x == i)
      = some b := by
  induction l with
  | nil => simp at hfind
  | cons a l ih =>
    rw [List.map_cons]
    by_cases h : key a = i
    · simp [h, hid]
    · have hne : (key a == key b) = false := by
        rw [hid]; exact beq_eq_false_iff_ne.mpr h
      rw [hne]
      simp only [Bool.false_eq_true, if_false]
      have hfind' : l.find? (fun x => key x == i) = some a0 := by
        rwa [List.find?_cons_of_neg _ (by simpa using h)] at hfind
      rw [List.find?_cons_of_neg _ (by simpa using h)]
      exact ih hfind'

theorem findTicket_id (st : DBState) (tid : Int) (t : ServiceTicket)
    (h : findTicket st tid = some t) : t.id = tid := by
  have h' : st.tickets.find? (fun x => x.id == tid) = some t := h
  have hp := List.find?_some h'
  simpa using hp

theorem findCustomer_id (st : DBState) (cid : Int) (c : Customer)
    (h : findCustomer st cid = some c) : c.id = cid := by
  have h' : st.customers.find? (fun x => x.id == cid) = some c := h
  have hp := List.find?_some h'
  simpa using hp

theorem findTicket_setTicket (st : DBState) (tid : Int) (t t2 : ServiceTicket)
    (hfind : findTicket st tid = some t) (hid : t2.id = tid) :
    findTicket (setTicket st t2) tid = some t2 := by
  have h' : st.tickets.find? (fun x => x.id == tid) = some t := hfind
  exact find?_map_replace (fun x => x.id) st.tickets t t2 tid h' hid

theorem findCustomer_setCustomer (st : DBState) (cid : Int) (c c2 : Customer)
    (hfind : findCustomer st cid = some c) (hid : c2.id = cid) :
    findCustomer (setCustomer st c2) cid = some c2 := by
  have h' : st.customers.find? (fun x => x.id == cid) = some c := hfind
  exact find?_map_replace (fun x => x.id) st.customers c c2 cid h' hid

theorem validateTicket_completedAt_ne_nil (cr : Bool) (q : TicketPayload)
    (h : q.completedAtSupplied.isSome = true) : validateTicket cr q ≠ [] := by
  simp [validateTicket, fieldErr, h]

theorem ticketPostLoad_status (now : Time) (t : ServiceTicket) :
    (ticketPostLoad now t).status = t.status := by
  unfold ticketPostLoad; split <;> rfl

theorem ticketPostLoad_id (now : Time) (t : ServiceTicket) :
    (ticketPostLoad now t).id = t.id := by
  unfold ticketPostLoad; split <;> rfl

/-- C1: on PUT /service-tickets/{id}, a supplied status of `Completed`
when the prior status was not `Completed` leaves the stored ticket with
`completed_at = now` (non-null); a supplied status other than
`Completed` when the prior status was `Completed` leaves it null; and a
client-supplied `completed_at` value is never written — the request is
rejected as an unknown field with 400 and the state is unchanged. -/
theorem serviceTicket_completion_stamp
    (st : DBState) (tid : Int) (p : TicketPayload) (now : Time) (t : ServiceTicket)
    (hfind : findTicket st tid = some t) :
    (p.status.map pyStrip = some "Completed" → t.status ≠ "Completed" →
      (update_service_ticket tid p now st).1.1 = 200 →
      ∃ t2, findTicket (update_service_ticket tid p now st).2 tid = some t2
        ∧ t2.completed_at = some now)
    ∧ (∀ s, p.status = some s → pyStrip s ≠ "Completed" → t.status = "Completed" →
      (update_service_ticket tid p now st).1.1 = 200 →
      ∃ t2, findTicket (update_service_ticket tid p now st).2 tid = some t2
        ∧ t2.completed_at = none)
    ∧ (p.completedAtSupplied.isSome = true →
      (update_service_ticket tid p now st).1.1 = 400
      ∧ (update_service_ticket tid p now st).2 = st) := by
  cases hv : validateTicket false (ticketPreLoad p) with
  | cons e es =>
    have hload : loadTicketUpdate p t now = .error (e :: es) := by
      simp [loadTicketUpdate, hv]
    have hr : update_service_ticket tid p now st = ((400, .errs (e :: es)), st) := by
      simp [update_service_ticket, hfind, hload]
    refine ⟨?_, ?_, ?_⟩
    · intro _ _ h200; rw [hr] at h200; simp at h200
    · intro s _ _ _ h200; rw [hr] at h200; simp at h200
    · intro _; rw [hr]; exact ⟨rfl, rfl⟩
  | nil =>
    have hload : loadTicketUpdate p t now
        = .ok (ticketPostLoad now (mergeTicket t (ticketPreLoad p))) := by
      simp [loadTicketUpdate, hv]
    have hid1 : (ticketPostLoad now (mergeTicket t (ticketPreLoad p))).id = tid := by
      rw [ticketPostLoad_id]
      show t.id = tid
      exact findTicket_id st tid t hfind
    refine ⟨?_, ?_, ?_⟩
    · intro hps hold h200
      have hmst : (ticketPostLoad now (mergeTicket t (ticketPreLoad p))).status
          = "Completed" := by
        rw [ticketPostLoad_status]
        show (ticketPreLoad p).status.getD t.status = "Completed"
        have : (ticketPreLoad p).status = some "Completed" := hps
        rw [this]; rfl
      have hcond : ((ticketPostLoad now (mergeTicket t (ticketPreLoad p))).status
          == "Completed" && t.status != "Completed") = true := by
        simp [hmst, hold]
      have hr : update_service_ticket tid p now st
          = ((200, .ticket (dumpTicket
              (setTicket st { ticketPostLoad now (mergeTicket t (ticketPreLoad p)) with
                completed_at := some now })
              { ticketPostLoad now (mergeTicket t (ticketPreLoad p)) with
                completed_at := some now } true)),
            setTicket st { ticketPostLoad now (mergeTicket t (ticketPreLoad p)) with
              completed_at := some now }) := by
        simp only [update_service_ticket, hfind, hload, hcond, Bool.true_and, if_true]
      refine ⟨{ ticketPostLoad now (mergeTicket t (ticketPreLoad p)) with
        completed_at := some now }, ?_, rfl⟩
      rw [hr]
      exact findTicket_setTicket st tid t _ hfind hid1
    · intro s hs hsne hold h200
      have hmst : (ticketPostLoad now (mergeTicket t (ticketPreLoad p))).status
          = pyStrip s := by
        rw [ticketPostLoad_status]
        show (ticketPreLoad p).status.getD t.status = pyStrip s
        have : (ticketPreLoad p).status = some (pyStrip s) := by
          show p.status.map pyStrip = some (pyStrip s)
          rw [hs]; rfl
        rw [this]; rfl
      have hcond1 : ((ticketPostLoad now (mergeTicket t (ticketPreLoad p))).status
          == "Completed" && t.status != "Completed") = false := by
        simp [hmst, hsne, hold]
      have hcond2 : ((ticketPostLoad now (mergeTicket t (ticketPreLoad p))).status
          != "Completed" && t.status == "Completed") = true := by
        simp [hmst, hsne, hold]
      have hr : update_service_ticket tid p now st
          = ((200, .ticket (dumpTicket
              (setTicket st { ticketPostLoad now (mergeTicket t (ticketPreLoad p)) with
                completed_at := none })
              { ticketPostLoad now (mergeTicket t (ticketPreLoad p)) with
                completed_at := none } true)),
            setTicket st { ticketPostLoad now (mergeTicket t (ticketPreLoad p)) with
              completed_at := none }) := by
        simp only [update_service_ticket, hfind, hload, hcond1, hcond2,
          Bool.false_eq_true, if_false, if_true]
      refine ⟨{ ticketPostLoad now (mergeTicket t (ticketPreLoad p)) with
        completed_at := none }, ?_, rfl⟩
      rw [hr]
      exact findTicket_setTicket st tid t _ hfind hid1
    · intro hsup
      have : (ticketPreLoad p).completedAtSupplied.isSome = true := hsup
      exact absurd hv (validateTicket_completedAt_ne_nil false (ticketPreLoad p) this)

/-- Witness for `serviceTicket_completion_stamp`: ticket 3 of `fxBase`
(status Open) updated with status `Completed` at time 50 ends up stored
with `completed_at = 50`. -/
theorem serviceTicket_completion_stamp_witness :
    (findTicket fxBase 3 = some fxTicket
      ∧ (({ status := some "Completed" } : TicketPayload).status).map pyStrip
          = some "Completed"
      ∧ fxTicket.status ≠ "Completed"
      ∧ (update_service_ticket 3 { status := some "Completed" } 50 fxBase).1.1 = 200)
    ∧ ∃ t2, findTicket (update_service_ticket 3 { status := some "Completed" } 50 fxBase).2 3
        = some t2 ∧ t2.completed_at = some 50 :=
  ⟨⟨by decide, by decide, by decide, by decide⟩,
    (serviceTicket_completion_stamp fxBase 3 { status := some "Completed" } 50 fxTicket
      (by decide)).1 (by decide) (by decide) (by decide)⟩

theorem validateTicket_id_ne_nil (cr : Bool) (q : TicketPayload)
    (h : q.idSupplied = true) : validateTicket cr q ≠ [] := by
  simp [validateTicket, fieldErr, h]

theorem validateTicket_createdAt_ne_nil (cr : Bool) (q : TicketPayload)
    (h : q.createdAtSupplied = true) : validateTicket cr q ≠ [] := by
  simp [validateTicket, fieldErr, h]

theorem validateCustomer_id_ne_nil (cr : Bool) (q : CustomerPayload)
    (h : q.idSupplied = true) : validateCustomer cr q ≠ [] := by
  simp [validateCustomer, fieldErr, h]

theorem validateCustomer_createdAt_ne_nil (cr : Bool) (q : CustomerPayload)
    (h : q.createdAtSupplied = true) : validateCustomer cr q ≠ [] := by
  simp [validateCustomer, fieldErr, h]

/-- C7: on PUT partial updates of a Customer (through its owner-checked
handler, authenticated as the target) and of a ServiceTicket, every
field absent from the payload retains its prior value in the stored row,
and `id` and `created_at` keep their prior values even when the payload
supplies them: such payloads are rejected as unknown fields with 400 and
the state is unchanged. -/
theorem partial_update_frame
    (stC stT : DBState) (cid tid : Int) (pc : CustomerPayload) (pt : TicketPayload)
    (salt : Nat) (now : Time) (c : Customer) (t : ServiceTicket)
    (hc : findCustomer stC cid = some c) (ht : findTicket stT tid = some t) :
    ((update_customer cid cid pc salt stC).1.1 = 200 →
      ∃ c2, findCustomer (update_customer cid cid pc salt stC).2 cid = some c2
        ∧ (pc.first_name = none → c2.first_name = c.first_name)
        ∧ (pc.last_name = none → c2.last_name = c.last_name)
        ∧ (pc.email = none → c2.email = c.email)
        ∧ (pc.password = none → c2.password = c.password)
        ∧ (pc.phone = none → c2.phone = c.phone)
        ∧ (pc.address = none → c2.address = c.address)
        ∧ c2.id = c.id ∧ c2.created_at = c.created_at)
    ∧ ((pc.idSupplied = true ∨ pc.createdAtSupplied = true) →
      (update_customer cid cid pc salt stC).1.1 = 400
      ∧ (update_customer cid cid pc salt stC).2 = stC)
    ∧ ((update_service_ticket tid pt now stT).1.1 = 200 →
      ∃ t2, findTicket (update_service_ticket tid pt now stT).2 tid = some t2
        ∧ (pt.customer_id = none → t2.customer_id = t.customer_id)
        ∧ (pt.vehicle_year = none → t2.vehicle_year = t.vehicle_year)
        ∧ (pt.vehicle_make = none → t2.vehicle_make = t.vehicle_make)
        ∧ (pt.vehicle_model = none → t2.vehicle_model = t.vehicle_model)
        ∧ (pt.vehicle_vin = none → t2.vehicle_vin = t.vehicle_vin)
        ∧ (pt.description = none → t2.description = t.description)
        ∧ (pt.estimated_cost = none → t2.estimated_cost = t.estimated_cost)
        ∧ (pt.actual_cost = none → t2.actual_cost = t.actual_cost)
        ∧ (pt.status = none → t2.status = t.status)
        ∧ t2.id = t.id ∧ t2.created_at = t.created_at)
    ∧ ((pt.idSupplied = true ∨ pt.createdAtSupplied = true) →
      (update_service_ticket tid pt now stT).1.1 = 400
      ∧ (update_service_ticket tid pt now stT).2 = stT) := by
  have hcid : c.id = cid := findCustomer_id stC cid c hc
  have htid : t.id = tid := findTicket_id stT tid t ht
  refine ⟨?_, ?_, ?_, ?_⟩
  · intro h200
    cases hv : validateCustomer false (customerPreLoad pc salt) with
    | cons e es =>
      have hr : update_customer cid cid pc salt stC = ((400, .errs (e :: es)), stC) := by
        simp [update_customer, hc, loadCustomerUpdate, hv]
      rw [hr] at h200; simp at h200
    | nil =>
      have hload : loadCustomerUpdate pc c salt
          = .ok (mergeCustomer c (customerPreLoad pc salt)) := by
        simp [loadCustomerUpdate, hv]
      by_cases hmail : emailConflict stC (mergeCustomer c (customerPreLoad pc salt)).id
          (mergeCustomer c (customerPreLoad pc salt)).email = true
      · have hr : update_customer cid cid pc salt stC
            = ((409, .err "Customer with this email already exists"), stC) := by
          simp [update_customer, hc, hload, hmail]
        rw [hr] at h200; simp at h200
      · have hr : update_customer cid cid pc salt stC
            = ((200, .customer (dumpCustomerSimple (mergeCustomer c (customerPreLoad pc salt)))),
              setCustomer stC (mergeCustomer c (customerPreLoad pc salt))) := by
          simp [update_customer, hc, hload, hmail]
        rw [hr]
        refine ⟨mergeCustomer c (customerPreLoad pc salt),
          findCustomer_setCustomer stC cid c _ hc (by simp [mergeCustomer, hcid]),
          ?_, ?_, ?_, ?_, ?_, ?_, ?_, ?_⟩ <;>
          first
          | (intro hnone; simp [mergeCustomer, customerPreLoad, hnone])
          | simp [mergeCustomer]
  · intro hsup
    have hne : validateCustomer false (customerPreLoad pc salt) ≠ [] := by
      rcases hsup with h | h
      · exact validateCustomer_id_ne_nil false _ (by simpa [customerPreLoad] using h)
      · exact validateCustomer_createdAt_ne_nil false _ (by simpa [customerPreLoad] using h)
    cases hv : validateCustomer false (customerPreLoad pc salt) with
    | nil => exact absurd hv hne
    | cons e es =>
      have hr : update_customer cid cid pc salt stC = ((400, .errs (e :: es)), stC) := by
        simp [update_customer, hc, loadCustomerUpdate, hv]
      rw [hr]; exact ⟨rfl, rfl⟩
  · intro h200
    cases hv : validateTicket false (ticketPreLoad pt) with
    | cons e es =>
      have hr : update_service_ticket tid pt now stT = ((400, .errs (e :: es)), stT) := by
        simp [update_service_ticket, ht, loadTicketUpdate, hv]
      rw [hr] at h200; simp at h200
    | nil =>
      have hload : loadTicketUpdate pt t now
          = .ok (ticketPostLoad now (mergeTicket t (ticketPreLoad pt))) := by
        simp [loadTicketUpdate, hv]
      have hid1 : (ticketPostLoad now (mergeTicket t (ticketPreLoad pt))).id = tid := by
        rw [ticketPostLoad_id]
        show t.id = tid
        exact htid
      by_cases hc1 : ((ticketPostLoad now (mergeTicket t (ticketPreLoad pt))).status
          == "Completed" && t.status != "Completed") = true
      · have hr : update_service_ticket tid pt now stT
            = ((200, .ticket (dumpTicket
                (setTicket stT { ticketPostLoad now (mergeTicket t (ticketPreLoad pt)) with
                  completed_at := some now })
                { ticketPostLoad now (mergeTicket t (ticketPreLoad pt)) with
                  completed_at := some now } true)),
              setTicket stT { ticketPostLoad now (mergeTicket t (ticketPreLoad pt)) with
                completed_at := some now }) := by
          simp only [update_service_ticket, ht, hload, hc1, if_true]
        rw [hr]
        refine ⟨_, findTicket_setTicket stT tid t _ ht hid1, ?_, ?_, ?_, ?_, ?_, ?_, ?_,
          ?_, ?_, ?_, ?_⟩ <;>
          first
          | (intro hnone;
              simp [ticketPostLoad, mergeTicket, ticketPreLoad, apply_ite, hnone])
          | simp [ticketPostLoad, mergeTicket, apply_ite, htid]
      · by_cases hc2 : ((ticketPostLoad now (mergeTicket t (ticketPreLoad pt))).status
            != "Completed" && t.status == "Completed") = true
        · have hr : update_service_ticket tid pt now stT
              = ((200, .ticket (dumpTicket
                  (setTicket stT { ticketPostLoad now (mergeTicket t (ticketPreLoad pt)) with
                    completed_at := none })
                  { ticketPostLoad now (mergeTicket t (ticketPreLoad pt)) with
                    completed_at := none } true)),
                setTicket stT { ticketPostLoad now (mergeTicket t (ticketPreLoad pt)) with
                  completed_at := none }) := by
            simp only [update_service_ticket, ht, hload, hc1, hc2, Bool.false_eq_true,
              if_false, if_true]
          rw [hr]
          refine ⟨_, findTicket_setTicket stT tid t _ ht hid1, ?_, ?_, ?_, ?_, ?_, ?_, ?_,
            ?_, ?_, ?_, ?_⟩ <;>
            first
            | (intro hnone;
                simp [ticketPostLoad, mergeTicket, ticketPreLoad, apply_ite, hnone])
            | simp [ticketPostLoad, mergeTicket, apply_ite, htid]
        · have hr : update_service_ticket tid pt now stT
              = ((200, .ticket (dumpTicket
                  (setTicket stT (ticketPostLoad now (mergeTicket t (ticketPreLoad pt))))
                  (ticketPostLoad now (mergeTicket t (ticketPreLoad pt))) true)),
                setTicket stT (ticketPostLoad now (mergeTicket t (ticketPreLoad pt)))) := by
            simp only [update_service_ticket, ht, hload, hc1, hc2, Bool.false_eq_true,
              if_false]
          rw [hr]
          refine ⟨_, findTicket_setTicket stT tid t _ ht hid1, ?_, ?_, ?_, ?_, ?_, ?_, ?_,
            ?_, ?_, ?_, ?_⟩ <;>
            first
            | (intro hnone;
                simp [ticketPostLoad, mergeTicket, ticketPreLoad, apply_ite, hnone])
            | simp [ticketPostLoad, mergeTicket, apply_ite, htid]
  · intro hsup
    have hne : validateTicket false (ticketPreLoad pt) ≠ [] := by
      rcases hsup with h | h
      · exact validateTicket_id_ne_nil false _ (by simpa [ticketPreLoad] using h)
      · exact validateTicket_createdAt_ne_nil false _ (by simpa [ticketPreLoad] using h)
    cases hv : validateTicket false (ticketPreLoad pt) with
    | nil => exact absurd hv hne
    | cons e es =>
      have hr : update_service_ticket tid pt now stT = ((400, .errs (e :: es)), stT) := by
        simp [update_service_ticket, ht, loadTicketUpdate, hv]
      rw [hr]; exact ⟨rfl, rfl⟩

/-- Witness for `partial_update_frame`: customer 1 updated with only a
phone and ticket 3 updated with only a vehicle make, in `fxBase`. -/
theorem partial_update_frame_witness :
    (findCustomer fxBase 1 = some fxCustomer ∧ findTicket fxBase 3 = some fxTicket
      ∧ (update_customer 1 1 { phone := some "555-1234" } 7 fxBase).1.1 = 200
      ∧ (update_service_ticket 3 { vehicle_make := some "Toyota" } 50 fxBase).1.1 = 200)
    ∧ (∃ c2, findCustomer (update_customer 1 1 { phone := some "555-1234" } 7 fxBase).2 1
          = some c2
        ∧ (({ phone := some "555-1234" } : CustomerPayload).first_name = none →
            c2.first_name = fxCustomer.first_name)
        ∧ (({ phone := some "555-1234" } : CustomerPayload).last_name = none →
            c2.last_name = fxCustomer.last_name)
        ∧ (({ phone := some "555-1234" } : CustomerPayload).email = none →
            c2.email = fxCustomer.email)
        ∧ (({ phone := some "555-1234" } : CustomerPayload).password = none →
            c2.password = fxCustomer.password)
        ∧ (({ phone := some "555-1234" } : CustomerPayload).phone = none →
            c2.phone = fxCustomer.phone)
        ∧ (({ phone := some "555-1234" } : CustomerPayload).address = none →
            c2.address = fxCustomer.address)
        ∧ c2.id = fxCustomer.id ∧ c2.created_at = fxCustomer.created_at)
    ∧ (∃ t2, findTicket (update_service_ticket 3 { vehicle_make := some "Toyota" } 50 fxBase).2 3
          = some t2
        ∧ (({ vehicle_make := some "Toyota" } : TicketPayload).customer_id = none →
            t2.customer_id = fxTicket.customer_id)
        ∧ (({ vehicle_make := some "Toyota" } : TicketPayload).vehicle_year = none →
            t2.vehicle_year = fxTicket.vehicle_year)
        ∧ (({ vehicle_make := some "Toyota" } : TicketPayload).vehicle_make = none →
            t2.vehicle_make = fxTicket.vehicle_make)
        ∧ (({ vehicle_make := some "Toyota" } : TicketPayload).vehicle_model = none →
            t2.vehicle_model = fxTicket.vehicle_model)
        ∧ (({ vehicle_make := some "Toyota" } : TicketPayload).vehicle_vin = none →
            t2.vehicle_vin = fxTicket.vehicle_vin)
        ∧ (({ vehicle_make := some "Toyota" } : TicketPayload).description = none →
            t2.description = fxTicket.description)
        ∧ (({ vehicle_make := some "Toyota" } : TicketPayload).estimated_cost = none →
            t2.estimated_cost = fxTicket.estimated_cost)
        ∧ (({ vehicle_make := some "Toyota" } : TicketPayload).actual_cost = none →
            t2.actual_cost = fxTicket.actual_cost)
        ∧ (({ vehicle_make := some "Toyota" } : TicketPayload).status = none →
            t2.status = fxTicket.status)
        ∧ t2.id = fxTicket.id ∧ t2.created_at = fxTicket.created_at) :=
  ⟨⟨by decide, by decide, by decide, by decide⟩,
    (partial_update_frame fxBase fxBase 1 3 { phone := some "555-1234" }
      { vehicle_make := some "Toyota" } 7 50 fxCustomer fxTicket (by decide) (by decide)).1
      (by decide),
    (partial_update_frame fxBase fxBase 1 3 { phone := some "555-1234" }
      { vehicle_make := some "Toyota" } 7 50 fxCustomer fxTicket (by decide) (by decide)).2.2.1
      (by decide)⟩

theorem bcryptCheckpw_malformed (pw storedHash : String)
    (h : wellFormedBcrypt storedHash = false) :
    bcryptCheckpw pw storedHash = .error () := by
  unfold wellFormedBcrypt at h
  unfold bcryptCheckpw
  by_cases hs : charsStartWith "$2b$12$".data storedHash.data = true
  · rw [hs, Bool.true_and] at h
    rw [if_pos hs]
    cases hsp : splitOnChar '$' (storedHash.data.drop 7) with
    | nil => rfl
    | cons a rest =>
      cases rest with
      | nil => rfl
      | cons b rest2 => rw [hsp] at h; exact Bool.noConfusion h
  · rw [if_neg hs]

/-- C8 (evidence of the code bug): the 401 authentication failures
produced by `token_required` — missing header, malformed header, expired
token — carry a JSON object keyed `message`, not the `error` key that
the error-shape rule (and the routes' own documented 401 schemas)
prescribe for non-validation errors. -/
theorem token_required_401_message_body :
    (token_required "server-secret" 0 .absent
        (fun _ st => ((200, .msg "ok"), st)) fxEmpty).1
      = (401, Body.msg "Token is missing")
    ∧ (token_required "server-secret" 0 .badFormat
        (fun _ st => ((200, .msg "ok"), st)) fxEmpty).1
      = (401, Body.msg "Token format invalid. Expected: Bearer <token>")
    ∧ (token_required "server-secret" 86401 (.bearer (encode_token 1 0 "server-secret"))
        (fun _ st => ((200, .msg "ok"), st)) fxEmpty).1
      = (401, Body.msg "Token is invalid: Signature has expired.") :=
  ⟨rfl, rfl, by decide⟩

/-- C9 counterexample: against a stored malformed hash, credential
verification raises (is not `ok false`), and login answers the generic
500 — not the 401 invalid-credentials response the claim asserts. -/
theorem login_malformed_hash_counterexample :
    login { email := some "mal@x.com", password := some "Secret123" } 0 "server-secret"
        fxMalformed
      = ((500, .err "An error occurred during login"), fxMalformed)
    ∧ (login { email := some "mal@x.com", password := some "Secret123" } 0 "server-secret"
        fxMalformed).1.1 ≠ 401
    ∧ (bcryptCheckpw "Secret123" "not-a-hash").isOk = false :=
  ⟨by decide, by decide, by decide⟩

/-- C9 amended: credential verification raises on a malformed stored
hash (modelling bcrypt's documented ValueError); the login route's
catch-all converts this to the generic 500 error response, so login
against a customer record holding a malformed hash yields 500, not
401. -/
theorem login_malformed_hash_500
    (lp : LoginPayload) (now : Time) (secret : String) (st : DBState) (c : Customer)
    (hval : validateLogin lp = [])
    (hfind : findCustomerByEmail st (lp.email.getD "") = some c)
    (hmal : wellFormedBcrypt c.password = false) :
    login lp now secret st = ((500, .err "An error occurred during login"), st) := by
  have hcp := bcryptCheckpw_malformed (lp.password.getD "") c.password hmal
  simp [login, hval, hfind, hcp]

/-- Witness for `login_malformed_hash_500`: the `fxMalformed` state. -/
theorem login_malformed_hash_500_witness :
    (validateLogin { email := some "mal@x.com", password := some "Secret123" } = []
      ∧ findCustomerByEmail fxMalformed
          (({ email := some "mal@x.com", password := some "Secret123" } :
            LoginPayload).email.getD "")
        = some { fxCustomer with email := "mal@x.com", password := "not-a-hash" }
      ∧ wellFormedBcrypt
          ({ fxCustomer with email := "mal@x.com", password := "not-a-hash" } :
            Customer).password = false)
    ∧ login { email := some "mal@x.com", password := some "Secret123" } 0 "server-secret"
        fxMalformed
      = ((500, .err "An error occurred during login"), fxMalformed) :=
  ⟨⟨by decide, by decide, by decide⟩,
    login_malformed_hash_500 { email := some "mal@x.com", password := some "Secret123" }
      0 "server-secret" fxMalformed
      { fxCustomer with email := "mal@x.com", password := "not-a-hash" }
      (by decide) (by decide) (by decide)⟩

theorem samePublic_fields (c c' : Customer) (h : samePublic c c' = true) :
    c.id = c'.id ∧ c.first_name = c'.first_name ∧ c.last_name = c'.last_name
    ∧ c.email = c'.email ∧ c.phone = c'.phone ∧ c.address = c'.address
    ∧ c.created_at = c'.created_at := by
  simp only [samePublic, Bool.and_eq_true, beq_iff_eq] at h
  exact ⟨h.1.1.1.1.1.1, h.1.1.1.1.1.2, h.1.1.1.1.2, h.1.1.1.2, h.1.1.2, h.1.2, h.2⟩

theorem samePublic_dump (c c' : Customer) (h : samePublic c c' = true) :
    dumpCustomerSimple c = dumpCustomerSimple c' := by
  obtain ⟨h1, h2, h3, h4, h5, h6, h7⟩ := samePublic_fields c c' h
  simp [dumpCustomerSimple, h1, h2, h3, h4, h5, h6, h7]

theorem samePublicList_dump (cs cs' : List Customer) (h : samePublicList cs cs' = true) :
    cs.map dumpCustomerSimple = cs'.map dumpCustomerSimple := by
  induction cs generalizing cs' with
  | nil => cases cs' with
    | nil => rfl
    | cons a' l' => simp [samePublicList] at h
  | cons a l ih =>
    cases cs' with
    | nil => simp [samePublicList] at h
    | cons a' l' =>
      simp only [samePublicList, Bool.and_eq_true] at h
      simp [samePublic_dump a a' h.1, ih l' h.2]

theorem samePublicList_find (cs cs' : List Customer) (i : Int)
    (h : samePublicList cs cs' = true) :
    (cs.find? (fun c => c.id == i) = none ∧ cs'.find? (fun c => c.id == i) = none)
    ∨ ∃ c c', cs.find? (fun c => c.id == i) = some c
        ∧ cs'.find? (fun c => c.id == i) = some c' ∧ samePublic c c' = true := by
  induction cs generalizing cs' with
  | nil => cases cs' with
    | nil => exact .inl ⟨rfl, rfl⟩
    | cons a' l' => simp [samePublicList] at h
  | cons a l ih =>
    cases cs' with
    | nil => simp [samePublicList] at h
    | cons a' l' =>
      simp only [samePublicList, Bool.and_eq_true] at h
      have hid := (samePublic_fields a a' h.1).1
      by_cases hi : a.id = i
      · refine .inr ⟨a, a', ?_, ?_, h.1⟩
        · exact List.find?_cons_of_pos _ (by simpa using hi)
        · exact List.find?_cons_of_pos _ (by simp [← hid, hi])
      · have e1 : (a :: l).find? (fun c => c.id == i) = l.find? (fun c => c.id == i) :=
          List.find?_cons_of_neg _ (by simpa using hi)
        have e2 : (a' :: l').find? (fun c => c.id == i) = l'.find? (fun c => c.id == i) :=
          List.find?_cons_of_neg _ (by simp [← hid, hi])
        rw [e1, e2]
        exact ih l' h.2

theorem samePublicList_any_email (cs cs' : List Customer) (i : Int) (em : String)
    (h : samePublicList cs cs' = true) :
    (cs.any fun c2 => c2.id != i && c2.email == em)
      = (cs'.any fun c2 => c2.id != i && c2.email == em) := by
  induction cs generalizing cs' with
  | nil => cases cs' with
    | nil => rfl
    | cons a' l' => simp [samePublicList] at h
  | cons a l ih =>
    cases cs' with
    | nil => simp [samePublicList] at h
    | cons a' l' =>
      simp only [samePublicList, Bool.and_eq_true] at h
      obtain ⟨h1, h2, h3, h4, h5, h6, h7⟩ := samePublic_fields a a' h.1
      simp [List.any_cons, h1, h4, ih l' h.2]

theorem samePublicList_maxId (cs cs' : List Customer) (h : samePublicList cs cs' = true) :
    (cs.foldr (fun c m => max c.id m) 0) = (cs'.foldr (fun c m => max c.id m) 0) := by
  induction cs generalizing cs' with
  | nil => cases cs' with
    | nil => rfl
    | cons a' l' => simp [samePublicList] at h
  | cons a l ih =>
    cases cs' with
    | nil => simp [samePublicList] at h
    | cons a' l' =>
      simp only [samePublicList, Bool.and_eq_true] at h
      simp [List.foldr_cons, (samePublic_fields a a' h.1).1, ih l' h.2]

theorem diffOnlyPasswords_unpack (s s' : DBState) (h : diffOnlyPasswords s s' = true) :
    samePublicList s.customers s'.customers = true ∧ s.mechanics = s'.mechanics
    ∧ s.tickets = s'.tickets ∧ s.parts = s'.parts
    ∧ s.mechanicAssignments = s'.mechanicAssignments
    ∧ s.partAssignments = s'.partAssignments := by
  simp only [diffOnlyPasswords, Bool.and_eq_true, beq_iff_eq] at h
  exact ⟨h.1.1.1.1.1, h.1.1.1.1.2, h.1.1.1.2, h.1.1.2, h.1.2, h.2⟩

theorem dumpTicket_noCustomer_eq (s s' : DBState) (t : ServiceTicket)
    (hm : s.mechanics = s'.mechanics) (ha : s.mechanicAssignments = s'.mechanicAssignments) :
    dumpTicket s t false = dumpTicket s' t false := by
  simp [dumpTicket, ticketMechanics, mechanicAssigned, hm, ha]

theorem dumpCustomerFull_samePublic (s s' : DBState) (c c' : Customer)
    (hsp : samePublic c c' = true) (hm : s.mechanics = s'.mechanics)
    (ht : s.tickets = s'.tickets) (hma : s.mechanicAssignments = s'.mechanicAssignments) :
    dumpCustomerFull s c = dumpCustomerFull s' c' := by
  have hid := (samePublic_fields c c' hsp).1
  unfold dumpCustomerFull customerTickets
  rw [samePublic_dump c c' hsp, hid, ht]
  congr 1
  apply List.map_congr_left
  intro t _
  exact dumpTicket_noCustomer_eq s s' t hm hma

theorem mergeCustomer_samePublic (c c' : Customer) (q : CustomerPayload)
    (hsp : samePublic c c' = true) :
    samePublic (mergeCustomer c q) (mergeCustomer c' q) = true := by
  obtain ⟨h1, h2, h3, h4, h5, h6, h7⟩ := samePublic_fields c c' hsp
  simp only [samePublic, Bool.and_eq_true, beq_iff_eq]
  refine ⟨⟨⟨⟨⟨⟨?_, ?_⟩, ?_⟩, ?_⟩, ?_⟩, ?_⟩, ?_⟩ <;>
    simp [mergeCustomer, h1, h2, h3, h4, h5, h6, h7]

/-- C10 counterexample: two states that differ only in customer 1's
stored password value produce different login responses (200 with a
token versus 401), so "all such read responses are byte-for-byte
identical" fails at the login endpoint. -/
theorem password_noninterference_counterexample :
    diffOnlyPasswords fxBase fxBaseAltPw = true
    ∧ login { email := some "john@x.com", password := some "Secret123" } 0 "server-secret"
        fxBase
      ≠ login { email := some "john@x.com", password := some "Secret123" } 0 "server-secret"
        fxBaseAltPw :=
  ⟨by decide, by decide⟩

/-- C10 amended: for the non-login Customer read surfaces — get by id,
list, create, update — any two states that differ only in stored
customer password values yield identical responses (the dumps never read
the password, which is load-only and excluded); login is excluded, since
its outcome necessarily depends on the stored hash through password
verification. -/
theorem password_noninterference_reads
    (s s' : DBState) (cid authId : Int) (p : CustomerPayload) (salt : Nat) (now : Time)
    (h : diffOnlyPasswords s s' = true) :
    (get_customer cid s).1 = (get_customer cid s').1
    ∧ (get_customers s).1 = (get_customers s').1
    ∧ (create_customer p salt now s).1 = (create_customer p salt now s').1
    ∧ (update_customer authId cid p salt s).1 = (update_customer authId cid p salt s').1 := by
  obtain ⟨hcs, hm, ht, hp, hma, hpa⟩ := diffOnlyPasswords_unpack s s' h
  refine ⟨?_, ?_, ?_, ?_⟩
  · rcases samePublicList_find s.customers s'.customers cid hcs with ⟨h1, h2⟩ |
      ⟨c, c', h1, h2, hsp⟩
    · have e1 : findCustomer s cid = none := h1
      have e2 : findCustomer s' cid = none := h2
      simp [get_customer, e1, e2]
    · have e1 : findCustomer s cid = some c := h1
      have e2 : findCustomer s' cid = some c' := h2
      simp only [get_customer, e1, e2]
      rw [dumpCustomerFull_samePublic s s' c c' hsp hm ht hma]
  · simp only [get_customers]
    rw [samePublicList_dump s.customers s'.customers hcs]
  · cases hload : loadCustomerCreate p salt now with
    | error errs =>
      have e1 : (create_customer p salt now s).1 = (400, .errs errs) := by
        simp [create_customer, hload]
      have e2 : (create_customer p salt now s').1 = (400, .errs errs) := by
        simp [create_customer, hload]
      rw [e1, e2]
    | ok c0 =>
      have hnext : nextCustomerId s = nextCustomerId s' := by
        unfold nextCustomerId
        rw [samePublicList_maxId s.customers s'.customers hcs]
      have hconf : emailConflict s (nextCustomerId s) c0.email
          = emailConflict s' (nextCustomerId s') c0.email := by
        unfold emailConflict
        rw [hnext]
        exact samePublicList_any_email s.customers s'.customers (nextCustomerId s') c0.email hcs
      by_cases hcf : emailConflict s (nextCustomerId s) c0.email = true
      · have hcf' : emailConflict s' (nextCustomerId s') c0.email = true := by
          rw [← hconf]; exact hcf
        have e1 : (create_customer p salt now s).1
            = (409, .err "Customer with this email already exists") := by
          simp [create_customer, hload, hcf]
        have e2 : (create_customer p salt now s').1
            = (409, .err "Customer with this email already exists") := by
          simp [create_customer, hload, hcf']
        rw [e1, e2]
      · have hcf0 : emailConflict s (nextCustomerId s) c0.email = false := by
          simpa using hcf
        have hcf' : emailConflict s' (nextCustomerId s') c0.email = false := by
          rw [← hconf]; exact hcf0
        have e1 : (create_customer p salt now s).1
            = (201, .customer (dumpCustomerSimple { c0 with id := nextCustomerId s })) := by
          simp [create_customer, hload, hcf0]
        have e2 : (create_customer p salt now s').1
            = (201, .customer (dumpCustomerSimple { c0 with id := nextCustomerId s' })) := by
          simp [create_customer, hload, hcf']
        rw [e1, e2, hnext]
  · by_cases hne : authId ≠ cid
    · have e1 : (update_customer authId cid p salt s).1
          = (403, .err "You can only update your own account") := by
        simp [update_customer, hne]
      have e2 : (update_customer authId cid p salt s').1
          = (403, .err "You can only update your own account") := by
        simp [update_customer, hne]
      rw [e1, e2]
    · have heq : authId = cid := by omega
      rcases samePublicList_find s.customers s'.customers cid hcs with ⟨h1, h2⟩ |
        ⟨c, c', h1, h2, hsp⟩
      · have e1 : findCustomer s cid = none := h1
        have e2 : findCustomer s' cid = none := h2
        simp [update_customer, heq, e1, e2]
      · have e1 : findCustomer s cid = some c := h1
        have e2 : findCustomer s' cid = some c' := h2
        cases hv : validateCustomer false (customerPreLoad p salt) with
        | cons e es =>
          have f1 : (update_customer authId cid p salt s).1 = (400, .errs (e :: es)) := by
            simp [update_customer, heq, e1, loadCustomerUpdate, hv]
          have f2 : (update_customer authId cid p salt s').1 = (400, .errs (e :: es)) := by
            simp [update_customer, heq, e2, loadCustomerUpdate, hv]
          rw [f1, f2]
        | nil =>
          have hl1 : loadCustomerUpdate p c salt
              = .ok (mergeCustomer c (customerPreLoad p salt)) := by
            simp [loadCustomerUpdate, hv]
          have hl2 : loadCustomerUpdate p c' salt
              = .ok (mergeCustomer c' (customerPreLoad p salt)) := by
            simp [loadCustomerUpdate, hv]
          have hspm := mergeCustomer_samePublic c c' (customerPreLoad p salt) hsp
          obtain ⟨hid1, _, _, hem1, _, _, _⟩ :=
            samePublic_fields (mergeCustomer c (customerPreLoad p salt))
              (mergeCustomer c' (customerPreLoad p salt)) hspm
          have hconf : emailConflict s (mergeCustomer c (customerPreLoad p salt)).id
              (mergeCustomer c (customerPreLoad p salt)).email
              = emailConflict s' (mergeCustomer c' (customerPreLoad p salt)).id
              (mergeCustomer c' (customerPreLoad p salt)).email := by
            unfold emailConflict
            rw [hid1, hem1]
            exact samePublicList_any_email s.customers s'.customers _ _ hcs
          by_cases hcf : emailConflict s (mergeCustomer c (customerPreLoad p salt)).id
              (mergeCustomer c (customerPreLoad p salt)).email = true
          · have hcf' : emailConflict s' (mergeCustomer c' (customerPreLoad p salt)).id
                (mergeCustomer c' (customerPreLoad p salt)).email = true := by
              rw [← hconf]; exact hcf
            have f1 : (update_customer authId cid p salt s).1
                = (409, .err "Customer with this email already exists") := by
              simp [update_customer, heq, e1, hl1, hcf]
            have f2 : (update_customer authId cid p salt s').1
                = (409, .err "Customer with this email already exists") := by
              simp [update_customer, heq, e2, hl2, hcf']
            rw [f1, f2]
          · have hcf0 : emailConflict s (mergeCustomer c (customerPreLoad p salt)).id
                (mergeCustomer c (customerPreLoad p salt)).email = false := by
              simpa using hcf
            have hcf' : emailConflict s' (mergeCustomer c' (customerPreLoad p salt)).id
                (mergeCustomer c' (customerPreLoad p salt)).email = false := by
              rw [← hconf]; exact hcf0
            have f1 : (update_customer authId cid p salt s).1
                = (200, .customer (dumpCustomerSimple
                    (mergeCustomer c (customerPreLoad p salt)))) := by
              simp [update_customer, heq, e1, hl1, hcf0]
            have f2 : (update_customer authId cid p salt s').1
                = (200, .customer (dumpCustomerSimple
                    (mergeCustomer c' (customerPreLoad p salt)))) := by
              simp [update_customer, heq, e2, hl2, hcf']
            rw [f1, f2, samePublic_dump _ _ hspm]

/-- Witness for `password_noninterference_reads`: `fxBase` against
`fxBaseAltPw` (same states as the counterexample), on customer 1 with a
first-name-only update payload. -/
theorem password_noninterference_reads_witness :
    diffOnlyPasswords fxBase fxBaseAltPw = true
    ∧ ((get_customer 1 fxBase).1 = (get_customer 1 fxBaseAltPw).1
      ∧ (get_customers fxBase).1 = (get_customers fxBaseAltPw).1
      ∧ (create_customer fxNewCustomerPayload 7 0 fxBase).1
        = (create_customer fxNewCustomerPayload 7 0 fxBaseAltPw).1
      ∧ (update_customer 1 1 { first_name := some "Johnny" } 7 fxBase).1
        = (update_customer 1 1 { first_name := some "Johnny" } 7 fxBaseAltPw).1) :=
  ⟨by decide,
    (password_noninterference_reads fxBase fxBaseAltPw 1 1
      { first_name := some "Johnny" } 7 0 (by decide)).1,
    (password_noninterference_reads fxBase fxBaseAltPw 1 1
      { first_name := some "Johnny" } 7 0 (by decide)).2.1,
    (password_noninterference_reads fxBase fxBaseAltPw 1 1
      fxNewCustomerPayload 7 0 (by decide)).2.2.1,
    (password_noninterference_reads fxBase fxBaseAltPw 1 1
      { first_name := some "Johnny" } 7 0 (by decide)).2.2.2⟩
